import Mathlib

/-!
Verification development for the Aviadata Twitter bot (`bot.py`).

The file shallowly embeds the bot's data model and operations in Lean:

* JSON-shaped Python values are modelled by `PyVal` (`None`, `int`, `float`,
  `str`, `dict`); `float` is modelled by `Rat`, standing for the exact value
  of the IEEE double.  Payload lists are `List PyVal`.
* Fallible Python code (code that can raise) is embedded in
  `Py α := Except String α`; an `Except.error` models an uncaught exception.
* Python string slicing `s[:n]` is `pySlice` (first `n` code points, as in
  CPython), `s[-n:]` is `strLastN`.
* The SQLite log is an append-only `List PostRecord`; the key-value
  `bot_state` table is an association list with upsert semantics.
-/

/-- Modelled Python/JSON value as it appears in API payloads.  `float` is
represented by the exact rational value of the double.  (Payload values are
JSON scalars and objects; nested arrays and booleans are outside the modelled
universe.) -/
inductive PyVal where
  | none : PyVal
  | int (n : Int) : PyVal
  | float (q : Rat) : PyVal
  | str (s : String) : PyVal
  | dict (kvs : List (String × PyVal)) : PyVal

/-- A Python dict payload item (JSON object), as an association list with
distinct keys. -/
abbrev Item := List (String × PyVal)

/-- Fallible Python computation: `Except.error` models an uncaught exception. -/
abbrev Py (α : Type) := Except String α

instance {ε α : Type} [DecidableEq ε] [DecidableEq α] :
    DecidableEq (Except ε α) := fun a b =>
  match a, b with
  | .ok x, .ok y =>
    if h : x = y then .isTrue (by rw [h]) else .isFalse (by simp [h])
  | .error x, .error y =>
    if h : x = y then .isTrue (by rw [h]) else .isFalse (by simp [h])
  | .ok _, .error _ => .isFalse (by simp)
  | .error _, .ok _ => .isFalse (by simp)

/-- Python truthiness of a value (`bool(v)`). -/
def truthy : PyVal → Bool
  | .none => false
  | .int n => n != 0
  | .float q => q != 0
  | .str s => s != ""
  | .dict kvs => !kvs.isEmpty

/-- Python `a or b`: `a` if truthy, else `b`. -/
def pyOr (a b : PyVal) : PyVal := if truthy a then a else b

/-- Python `item.get(k)`: the stored value, or `None` when the key is absent. -/
def dictGet (it : Item) (k : String) : PyVal :=
  match it.lookup k with
  | some v => v
  | Option.none => .none

/-- Python `item.get(k, d)`: the stored value, or `d` when the key is absent. -/
def dictGetD (it : Item) (k : String) (d : PyVal) : PyVal :=
  match it.lookup k with
  | some v => v
  | Option.none => d

/-- Dict access on an arbitrary value: `x.get(...)` raises `AttributeError`
when `x` is not a dict. -/
def asDict : PyVal → Py Item
  | .dict kvs => .ok kvs
  | _ => .error "AttributeError: get"

/-- Python string slice `s[:n]`: the first `n` code points. -/
def pySlice (s : String) (n : Nat) : String := String.mk (s.data.take n)

/-- Python string slice `s[-n:]`: the last `n` code points (whole string when
shorter). -/
def strLastN (s : String) (n : Nat) : String :=
  String.mk (s.data.drop (s.data.length - n))

/-- Is the value an `int` or a `float` (Python `isinstance(v, (int, float))`)? -/
def isNum : PyVal → Bool
  | .int _ => true
  | .float _ => true
  | _ => false

/-- Is the value a `str`? -/
def isStr : PyVal → Bool
  | .str _ => true
  | _ => false

/-- Numeric value of an `int`/`float` `PyVal` (0 on non-numeric values; only
used under an `isNum` guard). -/
def toRat : PyVal → Rat
  | .int n => (n : Rat)
  | .float q => q
  | _ => 0

/-- Python `int(q)` on a float: truncation toward zero. -/
def ratTrunc (q : Rat) : Int := if 0 ≤ q then q.floor else q.ceil

/-- Python `int(v)` on a value known (by an `isNum` guard) to be numeric. -/
def pyTruncV : PyVal → Int
  | .int n => n
  | .float q => ratTrunc q
  | _ => 0

/-- Auxiliary splitter: cut a character list at every separator occurrence. -/
def splitCharAux (sep : Char) : List Char → List Char → List (List Char)
  | [], acc => [acc.reverse]
  | c :: cs, acc =>
    if c = sep then acc.reverse :: splitCharAux sep cs []
    else splitCharAux sep cs (c :: acc)

/-- Python `s.split(sep)` for a one-character separator (the only form the
source uses, `split('-')`). -/
def splitOnChar (sep : Char) (s : String) : List String :=
  (splitCharAux sep s.data []).map String.mk

/-- Decimal value of a non-empty all-digit character list. -/
def digitsToNat? (l : List Char) : Option Nat :=
  if l.isEmpty || !l.all Char.isDigit then Option.none
  else some (l.foldl (fun acc c => acc * 10 + (c.toNat - 48)) 0)

/-- Python `int(s)` on a string: optional sign followed by digits.  (CPython
also strips whitespace and accepts `_` separators, which the model omits.) -/
def strToInt? (s : String) : Option Int :=
  match s.data with
  | '-' :: rest => (digitsToNat? rest).map (fun n => -(n : Int))
  | '+' :: rest => (digitsToNat? rest).map (fun n => (n : Int))
  | l => (digitsToNat? l).map (fun n => (n : Int))

/-- Python `s.replace(' ', '')`: drop every space. -/
def stripSpaces (s : String) : String :=
  String.mk (s.data.filter (fun c => c ≠ ' '))

/-- Python `int(v)` in full: parses strings via `strToInt?`, truncates
floats, raises on `None`/dicts. -/
def pyInt : PyVal → Py Int
  | .int n => .ok n
  | .float q => .ok (ratTrunc q)
  | .str s =>
    match strToInt? s with
    | some n => .ok n
    | Option.none => .error "ValueError: invalid literal for int"
  | _ => .error "TypeError: int"

/-- Python list indexing `xs[i]` with negative-index support; `Option.none`
models `IndexError`. -/
def pyIndex (xs : List α) (i : Int) : Option α :=
  let n : Int := xs.length
  let j := if i < 0 then i + n else i
  if 0 ≤ j then xs.get? j.toNat else Option.none

/-- Groups of at most three characters, taken from the front. -/
def chunk3 : List Char → List (List Char)
  | [] => []
  | [a] => [[a]]
  | [a, b] => [[a, b]]
  | a :: b :: c :: rest => [a, b, c] :: chunk3 rest

/-- Insert `,` thousands separators into a digit string (Python `{:,}` on the
integer part). -/
def commaGroup (s : String) : String :=
  String.mk (List.intercalate [','] ((chunk3 s.data.reverse).map List.reverse).reverse)

/-- Python `f"{n:,}"` for an `int`. -/
def fmtCommaInt (n : Int) : String :=
  (if n < 0 then "-" else "") ++ commaGroup (toString n.natAbs)

/-- First `n` decimal digits of the fractional part of a non-negative
rational. -/
def fracDigits : Nat → Rat → List Nat
  | 0, _ => []
  | Nat.succ k, q =>
    let d := (q * 10).floor
    d.toNat % 10 :: fracDigits k (q * 10 - d)

/-- Decimal rendering of the fractional part of `|q|` (models the decimal
expansion CPython's `repr` prints for the double; at most 12 digits, trailing
zeros trimmed, at least one digit). -/
def fracRepr (q : Rat) : String :=
  let ds := (fracDigits 12 (|q| - |q|.floor)).reverse.dropWhile (· == 0) |>.reverse
  if ds.isEmpty then "0" else String.join (ds.map (fun d => toString d))

/-- Python `str(x)` / `repr(x)` for a float, modelled on the rational value. -/
def ratRepr (q : Rat) : String :=
  (if q < 0 then "-" else "") ++ toString (|q|.floor.toNat) ++ "." ++ fracRepr q

/-- Python `f"{x:,}"` for a float: separators in the integer part only. -/
def fmtCommaFloat (q : Rat) : String :=
  (if q < 0 then "-" else "") ++ commaGroup (toString (|q|.floor.toNat)) ++ "." ++ fracRepr q

/-- Python `str(x)` on a modelled value (dict rendering is schematic). -/
def pyStr : PyVal → String
  | .none => "None"
  | .int n => toString n
  | .float q => ratRepr q
  | .str s => s
  | .dict _ => "{...}"

/-- Python `f"{v:,}"`: formats ints and floats, raises on other values. -/
def fmtCommaV : PyVal → Py String
  | .int n => .ok (fmtCommaInt n)
  | .float q => .ok (fmtCommaFloat q)
  | _ => .error "TypeError: format with comma"

/-- Python `f"{q:.nf}"` on the rational value of a float: fixed-point with `n`
digits, rounding modelled by round-half-even-free `round` (ties cannot arise
from binary doubles). -/
def fmtFloatN (n : Nat) (q : Rat) : String :=
  let scale : Rat := (10 : Rat) ^ n
  let r := (round (|q| * scale)).toNat
  (if q < 0 then "-" else "") ++ toString (r / 10 ^ n) ++ "." ++
    (let frac := toString (r % 10 ^ n)
     String.mk (List.replicate (n - frac.length) '0') ++ frac)

/-- Python `f"{v:.1f}"`: formats numeric values, raises otherwise. -/
def fmtFloat1V (v : PyVal) : Py String :=
  if isNum v then .ok (fmtFloatN 1 (toRat v)) else .error "ValueError: format .1f"

/-- Python `f"{v:.2f}"`: formats numeric values, raises otherwise. -/
def fmtFloat2V (v : PyVal) : Py String :=
  if isNum v then .ok (fmtFloatN 2 (toRat v)) else .error "ValueError: format .2f"

/-- Python `v[:n]` on an arbitrary value: slices strings, raises otherwise. -/
def pySliceV (v : PyVal) (n : Nat) : Py String :=
  match v with
  | .str s => .ok (pySlice s n)
  | _ => .error "TypeError: not subscriptable"

/-- Truthiness of an optional list argument (`not data` on a value that is
either `None` or a list). -/
def optListTruthy (d : Option (List PyVal)) : Bool :=
  match d with
  | some l => !l.isEmpty
  | Option.none => false

/-- Truthiness of an optional dict argument. -/
def optDictTruthy (d : Option Item) : Bool :=
  match d with
  | some kvs => !kvs.isEmpty
  | Option.none => false

/-- Lexicographic code-point comparison of character lists (Python string
`<`). -/
def charListLt : List Char → List Char → Bool
  | [], [] => false
  | [], _ :: _ => true
  | _ :: _, [] => false
  | a :: as, b :: bs =>
    if a.toNat < b.toNat then true
    else if b.toNat < a.toNat then false
    else charListLt as bs

/-- Python string `a <= b` (code-point lexicographic). -/
def pyStrLe (a b : String) : Bool := !charListLt b.data a.data

/-- Stable insertion: `x` is placed after every `y` with `after x y`. -/
def insertStable (after : α → α → Bool) (x : α) : List α → List α
  | [] => [x]
  | y :: ys => if after x y then y :: insertStable after x ys else x :: y :: ys

/-- Stable sort: elements are inserted in order; with
`after x y := key y ≥ key x` this is Python's stable descending
`sorted(key=..., reverse=True)`, with `after x y := key y ≤ key x` the stable
ascending `sorted(key=...)`. -/
def stableSortBy (after : α → α → Bool) (l : List α) : List α :=
  l.foldl (fun acc x => insertStable after x acc) []

/-- Python `sorted(l, key=key, reverse=True)` for a rational-valued key. -/
def sortDescByRat (key : α → Rat) (l : List α) : List α :=
  stableSortBy (fun x y => key x ≤ key y) l

/-- Python `sorted(l, key=key)` for a rational-valued key. -/
def sortAscByRat (key : α → Rat) (l : List α) : List α :=
  stableSortBy (fun x y => key y ≤ key x) l

/-- Sort decorated elements by their `PyVal` keys.  Keys must be all numeric
or all strings; any other combination (with at least two elements) makes
CPython's sort compare incomparable values and raise `TypeError`. -/
def sortWithKeys (desc : Bool) (pairs : List (α × PyVal)) : Py (List α) :=
  if pairs.length ≤ 1 then .ok (pairs.map Prod.fst)
  else if pairs.all (fun p => isNum p.2) then
    .ok ((if desc then sortDescByRat (fun p => toRat p.2) pairs
          else sortAscByRat (fun p => toRat p.2) pairs).map Prod.fst)
  else if pairs.all (fun p => isStr p.2) then
    .ok ((stableSortBy
          (fun x y => if desc then pyStrLe (pyStr x.2) (pyStr y.2)
                      else pyStrLe (pyStr y.2) (pyStr x.2)) pairs).map Prod.fst)
  else .error "TypeError: '<' not supported between instances"

/-- Python `sorted(l, key=key[, reverse])`: the key is evaluated on every
element first (and may raise), then the decorated list is sorted. -/
def pySortedByKey (desc : Bool) (key : PyVal → Py PyVal) (l : List PyVal) :
    Py (List PyVal) :=
  match l.mapM (fun x => (key x).map (fun k => (x, k))) with
  | .error e => .error e
  | .ok pairs => sortWithKeys desc pairs

/-- Reduce modulo 2^32 (32-bit machine arithmetic). -/
def mask32 (x : Nat) : Nat := x % 4294967296

/-- 32-bit bitwise complement. -/
def not32 (x : Nat) : Nat := 4294967295 - mask32 x

/-- 32-bit left rotation. -/
def rotl32 (x n : Nat) : Nat :=
  mask32 (mask32 x <<< n) + (mask32 x >>> (32 - n))

/-- MD5 sine-derived constant table. -/
def md5K : List Nat :=
  [0xd76aa478, 0xe8c7b756, 0x242070db, 0xc1bdceee,
   0xf57c0faf, 0x4787c62a, 0xa8304613, 0xfd469501,
   0x698098d8, 0x8b44f7af, 0xffff5bb1, 0x895cd7be,
   0x6b901122, 0xfd987193, 0xa679438e, 0x49b40821,
   0xf61e2562, 0xc040b340, 0x265e5a51, 0xe9b6c7aa,
   0xd62f105d, 0x02441453, 0xd8a1e681, 0xe7d3fbc8,
   0x21e1cde6, 0xc33707d6, 0xf4d50d87, 0x455a14ed,
   0xa9e3e905, 0xfcefa3f8, 0x676f02d9, 0x8d2a4c8a,
   0xfffa3942, 0x8771f681, 0x6d9d6122, 0xfde5380c,
   0xa4beea44, 0x4bdecfa9, 0xf6bb4b60, 0xbebfbc70,
   0x289b7ec6, 0xeaa127fa, 0xd4ef3085, 0x04881d05,
   0xd9d4d039, 0xe6db99e5, 0x1fa27cf8, 0xc4ac5665,
   0xf4292244, 0x432aff97, 0xab9423a7, 0xfc93a039,
   0x655b59c3, 0x8f0ccc92, 0xffeff47d, 0x85845dd1,
   0x6fa87e4f, 0xfe2ce6e0, 0xa3014314, 0x4e0811a1,
   0xf7537e82, 0xbd3af235, 0x2ad7d2bb, 0xeb86d391]

/-- MD5 per-round left-rotation amounts. -/
def md5S : List Nat :=
  [7, 12, 17, 22, 7, 12, 17, 22, 7, 12, 17, 22, 7, 12, 17, 22,
   5, 9, 14, 20, 5, 9, 14, 20, 5, 9, 14, 20, 5, 9, 14, 20,
   4, 11, 16, 23, 4, 11, 16, 23, 4, 11, 16, 23, 4, 11, 16, 23,
   6, 10, 15, 21, 6, 10, 15, 21, 6, 10, 15, 21, 6, 10, 15, 21]

/-- MD5 round function (F, G, H, I by round). -/
def md5F (i b c d : Nat) : Nat :=
  if i < 16 then Nat.lor (Nat.land b c) (Nat.land (not32 b) d)
  else if i < 32 then Nat.lor (Nat.land d b) (Nat.land (not32 d) c)
  else if i < 48 then Nat.xor b (Nat.xor c d)
  else Nat.xor c (Nat.lor b (not32 d))

/-- MD5 message-word index for round `i`. -/
def md5G (i : Nat) : Nat :=
  if i < 16 then i
  else if i < 32 then (5 * i + 1) % 16
  else if i < 48 then (3 * i + 5) % 16
  else (7 * i) % 16

/-- One MD5 round on state `(a, b, c, d)` with message words `M`. -/
def md5Round (M : List Nat) (st : Nat × Nat × Nat × Nat) (i : Nat) :
    Nat × Nat × Nat × Nat :=
  let a := st.1
  let b := st.2.1
  let c := st.2.2.1
  let d := st.2.2.2
  let f := mask32 (md5F i b c d + a + md5K.getD i 0 + M.getD (md5G i) 0)
  (d, mask32 (b + rotl32 f (md5S.getD i 0)), b, c)

/-- Process one 512-bit block. -/
def md5Block (st : Nat × Nat × Nat × Nat) (M : List Nat) :
    Nat × Nat × Nat × Nat :=
  let r := (List.range 64).foldl (md5Round M) st
  (mask32 (st.1 + r.1), mask32 (st.2.1 + r.2.1),
   mask32 (st.2.2.1 + r.2.2.1), mask32 (st.2.2.2 + r.2.2.2))

/-- MD5 padding of a byte string. -/
def md5Pad (msg : List Nat) : List Nat :=
  let len := msg.length
  let bitLen := (8 * len) % 2 ^ 64
  let zeros := (119 - len % 64) % 64
  msg ++ [0x80] ++ List.replicate zeros 0 ++
    (List.range 8).map (fun i => (bitLen >>> (8 * i)) % 256)

/-- Little-endian 32-bit words from a byte list. -/
def bytesToWords : List Nat → List Nat
  | b0 :: b1 :: b2 :: b3 :: rest =>
    (b0 + 256 * b1 + 65536 * b2 + 16777216 * b3) :: bytesToWords rest
  | _ => []

/-- Split a byte list into 64-byte blocks. -/
def chunks64 (l : List Nat) : List (List Nat) :=
  if h : l = [] then [] else l.take 64 :: chunks64 (l.drop 64)
termination_by l.length
decreasing_by
  simp only [List.length_drop]
  exact Nat.sub_lt (List.length_pos.mpr h) (by norm_num)

/-- MD5 digest (16 bytes) of a byte string. -/
def md5digest (msg : List Nat) : List Nat :=
  let blocks := chunks64 (md5Pad msg)
  let st := blocks.foldl (fun st blk => md5Block st (bytesToWords blk))
    (0x67452301, 0xefcdab89, 0x98badcfe, 0x10325476)
  ([st.1, st.2.1, st.2.2.1, st.2.2.2].map
    (fun w => (List.range 4).map (fun i => (w >>> (8 * i)) % 256))).flatten

/-- Python `int(hashlib.md5(mes.encode()).hexdigest()[:8], 16) % 4`: big-endian
value of the first four digest bytes, modulo 4. -/
def md5seed (mes : String) : Nat :=
  let dg := md5digest (mes.toUTF8.toList.map (fun b => b.toNat))
  (dg.getD 0 0 <<< 24 + dg.getD 1 0 <<< 16 + dg.getD 2 0 <<< 8 + dg.getD 3 0) % 4

/-- Final `return tweet[:280]` shared by every formatter: the computed text is
cut to the first 280 code points (no marker is appended). -/
def cap280 (r : Py (Option String)) : Py (Option String) :=
  r.map (fun o => o.map (fun t => pySlice t 280))

/-- Month names used by `format_month_name`. -/
def mesesNombres : List String :=
  ["Enero", "Febrero", "Marzo", "Abril", "Mayo", "Junio",
   "Julio", "Agosto", "Septiembre", "Octubre", "Noviembre", "Diciembre"]

/-- Short month names used by the compact date labels. -/
def mesesCortos : List String :=
  ["Ene", "Feb", "Mar", "Abr", "May", "Jun",
   "Jul", "Ago", "Sep", "Oct", "Nov", "Dic"]

/-- `TwitterContentGenerator.format_month_name`: convert "2025-09" to
"Septiembre 2025"; any failure inside the `try` (unpack, parse, index) falls
back to the input string. -/
def format_month_name (mes_str : String) : String :=
  match splitOnChar '-' mes_str with
  | [anio, mes_num] =>
    match strToInt? mes_num with
    | some k =>
      match pyIndex mesesNombres (k - 1) with
      | some mes_nombre => mes_nombre ++ " " ++ anio
      | Option.none => mes_str
    | Option.none => mes_str
  | _ => mes_str

/-- The duplicated `try` block converting a raw "2025-09" month value to a
short label like "Sep 25"; any failure falls back to `str(mes_raw)`. -/
def fecha_legible_corta (mes_raw : PyVal) : String :=
  match mes_raw with
  | .str s =>
    match splitOnChar '-' s with
    | [anio, mes_num] =>
      match strToInt? mes_num with
      | some k =>
        match pyIndex mesesCortos (k - 1) with
        | some mes_corto => mes_corto ++ " " ++ strLastN anio 2
        | Option.none => s
      | Option.none => s
    | _ => s
  | v => pyStr v

/-- The medal emojis used by the top-3 rankers. -/
def medals3 : List String := ["🥇", "🥈", "🥉"]

/-- `generar_resumen_mensual`, before the final `[:280]`. -/
def generar_resumen_mensual_text (data : Option Item) (mes : String) :
    Py (Option String) :=
  if !optDictTruthy data then .ok Option.none
  else
    let d := data.getD []
    let mesF := format_month_name mes
    let seed := md5seed mes
    let intros : List String :=
      ["📊 ¡" ++ mesF ++ " cerró con estos números!",
       "🚀 Resumen de " ++ mesF ++ " - ¡Qué mes!",
       "✈️ Los números de " ++ mesF ++ " que tienes que conocer:",
       "📈 " ++ mesF ++ ": Un mes lleno de vuelos"]
    let intro := intros.getD seed ""
    let vuelos_total := dictGetD d "total_vuelos" (.int 0)
    let pax_total := dictGetD d "total_pasajeros" (.int 0)
    let ocupacion := dictGetD d "ocupacion_promedio" (.int 0)
    match fmtCommaV vuelos_total with
    | .error e => .error e
    | .ok vs =>
    match fmtCommaV pax_total with
    | .error e => .error e
    | .ok ps =>
    match fmtFloat1V ocupacion with
    | .error e => .error e
    | .ok oc =>
    .ok (some (intro ++ "\n\n✈️ Vuelos: " ++ vs ++ "\n👥 Pasajeros: " ++ ps ++
      "\n📊 Ocupación: " ++ oc ++ "%\n\naviadata.ar\n#AviacionArgentina #" ++
      stripSpaces mesF))

/-- `generar_resumen_mensual` (endpoint `/vuelos/kpis`). -/
def generar_resumen_mensual (data : Option Item) (mes : String) :
    Py (Option String) :=
  cap280 (generar_resumen_mensual_text data mes)

/-- The `parse_item` closure of `generar_top_aerolineas`: normalize possible
field names for the airline name and flight count. -/
def top_aerolineas_parse_item (it : Item) : PyVal × PyVal :=
  (pyOr (dictGet it "Aerolinea Nombre")
    (pyOr (dictGet it "aerolinea")
      (pyOr (dictGet it "nombre")
        (pyOr (dictGet it "Aerolinea") (.str "Desconocida")))),
   pyOr (dictGet it "total_vuelos")
    (pyOr (dictGet it "Cantidad")
      (pyOr (dictGet it "vuelos") (.int 0))))

/-- `parsed` in `generar_top_aerolineas`: parse every item, then keep entries
whose count is numeric and strictly positive. -/
def top_aerolineas_parsed (l : List PyVal) : Py (List (PyVal × PyVal)) :=
  match l.mapM asDict with
  | .error e => .error e
  | .ok its =>
    .ok ((its.map top_aerolineas_parse_item).filter
      (fun p => isNum p.2 && decide ((0 : Rat) < toRat p.2)))

/-- `generar_top_aerolineas`, before the final `[:280]`. -/
def generar_top_aerolineas_text (data : Option (List PyVal)) (mes : String) :
    Py (Option String) :=
  let mesF := format_month_name mes
  if !optListTruthy data then .ok Option.none
  else
    match top_aerolineas_parsed (data.getD []) with
    | .error e => .error e
    | .ok parsed =>
      if parsed.isEmpty then .ok Option.none
      else
        let top_3 := (sortDescByRat (fun p => toRat p.2) parsed).take 3
        let lines := String.join ((top_3.zip medals3).map (fun pm =>
          pm.2 ++ " " ++ pySlice (pyStr pm.1.1) 20 ++ ": " ++
          fmtCommaInt (pyTruncV pm.1.2) ++ " vuelos\n"))
        .ok (some ("🏆 Top Aerolíneas " ++ mesF ++ "\n¿Cuál es tu favorita?\n\n" ++
          lines ++ "\naviadata.ar\n#Aerolineas #" ++ stripSpaces mesF))

/-- `generar_top_aerolineas` (endpoint `/vuelos/aerolinea`). -/
def generar_top_aerolineas (data : Option (List PyVal)) (mes : String) :
    Py (Option String) :=
  cap280 (generar_top_aerolineas_text data mes)

/-- `generar_ocupacion_promedio`, before the final `[:280]`. -/
def generar_ocupacion_promedio_text (data : Option (List PyVal)) (mes : String) :
    Py (Option String) :=
  let mesF := format_month_name mes
  if !optListTruthy data then .ok Option.none
  else
    match pySortedByKey true
      (fun x => (asDict x).map (fun it => dictGetD it "ocupacion_porcentaje" (.int 0)))
      (data.getD []) with
    | .error e => .error e
    | .ok sorted_all =>
      let top_3 := sorted_all.take 3
      match top_3.mapM (fun x => show Py String from
        match asDict x with
        | .error e => .error e
        | .ok it =>
          match pySliceV (dictGetD it "Aerolinea Nombre" (.str "Desconocida")) 20 with
          | .error e => .error e
          | .ok nombre =>
            match fmtFloat1V (dictGetD it "ocupacion_porcentaje" (.int 0)) with
            | .error e => .error e
            | .ok oc => .ok (nombre ++ ": " ++ oc ++ "%\n")) with
      | .error e => .error e
      | .ok rows =>
        let lines := String.join ((rows.zip medals3).map (fun rm => rm.2 ++ " " ++ rm.1))
        .ok (some ("📈 Ocupación Promedio " ++ mesF ++ "\nTop aerolíneas:\n\n" ++
          lines ++ "\naviadata.ar\n#Ocupacion #" ++ stripSpaces mesF))

/-- `generar_ocupacion_promedio` (endpoint `/vuelos/ocupacion`). -/
def generar_ocupacion_promedio (data : Option (List PyVal)) (mes : String) :
    Py (Option String) :=
  cap280 (generar_ocupacion_promedio_text data mes)

/-- `generar_evolucion_historica`, before the final `[:280]`. -/
def generar_evolucion_historica_text (data : Option (List PyVal)) (mes : String) :
    Py (Option String) :=
  if !optListTruthy data || (data.getD []).length < 2 then .ok Option.none
  else
    match pySortedByKey false
      (fun x => (asDict x).map (fun it => dictGetD it "Mes" (.str "")))
      (data.getD []) with
    | .error e => .error e
    | .ok sorted_full =>
      let sorted_data := sorted_full.drop (sorted_full.length - 4)
      match sorted_data.mapM (fun x => show Py String from
        match asDict x with
        | .error e => .error e
        | .ok it =>
          let mes_raw := dictGetD it "Mes" (.str "")
          let vuelos := dictGetD it "Cantidad" (.int 0)
          match fmtCommaV vuelos with
          | .error e => .error e
          | .ok vs => .ok (fecha_legible_corta mes_raw ++ ": " ++ vs ++ " vuelos\n")) with
      | .error e => .error e
      | .ok lines =>
        let trend : Py String :=
          if 2 ≤ sorted_data.length then
            match pyIndex sorted_data (-1), pyIndex sorted_data (-2) with
            | some xu, some xa =>
              match asDict xu with
              | .error e => .error e
              | .ok itu =>
                match asDict xa with
                | .error e => .error e
                | .ok ita =>
                  let ultimo := dictGetD itu "Cantidad" (.int 0)
                  let anterior := dictGetD ita "Cantidad" (.int 0)
                  if isNum anterior then
                    if (0 : Rat) < toRat anterior then
                      if isNum ultimo then
                        let cambio := (toRat ultimo - toRat anterior) / toRat anterior * 100
                        if (0 : Rat) < cambio then
                          .ok ("\n📊 Crecimiento del " ++ fmtFloatN 1 cambio ++ "%")
                        else
                          .ok ("\n📊 Variación del " ++ fmtFloatN 1 cambio ++ "%")
                      else .error "TypeError: unsupported operand"
                    else .ok ""
                  else .error "TypeError: '>' not supported"
            | _, _ => .error "IndexError"
          else .ok ""
        match trend with
        | .error e => .error e
        | .ok tr =>
          .ok (some ("📈 Evolución histórica de vuelos:\n\n" ++ String.join lines ++
            tr ++ "\n\naviadata.ar\n#Aviación #Estadísticas"))

/-- `generar_evolucion_historica` (endpoint `/vuelos/mes`). -/
def generar_evolucion_historica (data : Option (List PyVal)) (mes : String) :
    Py (Option String) :=
  cap280 (generar_evolucion_historica_text data mes)

/-- `generar_historial_vuelos_mes`, before the final `[:280]`. -/
def generar_historial_vuelos_mes_text (data : Option (List PyVal)) (mes : String) :
    Py (Option String) :=
  if !optListTruthy data then .ok Option.none
  else
    match pySortedByKey false
      (fun x => (asDict x).map (fun it => dictGetD it "Mes" (.str "")))
      (data.getD []) with
    | .error e => .error e
    | .ok sorted_full =>
      let sorted_data := sorted_full.drop (sorted_full.length - 8)
      match sorted_data.mapM (fun x => show Py String from
        match asDict x with
        | .error e => .error e
        | .ok it =>
          let mes_raw := dictGetD it "Mes" (.str "")
          let vuelos := dictGetD it "Cantidad" (.int 0)
          match fmtCommaV vuelos with
          | .error e => .error e
          | .ok vs => .ok (fecha_legible_corta mes_raw ++ ": " ++ vs)) with
      | .error e => .error e
      | .ok lines =>
        .ok (some ("🗓️ Historial de vuelos por mes\n\n" ++
          String.intercalate "\n" lines ++ "\n\naviadata.ar\n#Historial #Vuelos"))

/-- `generar_historial_vuelos_mes` (endpoint `/vuelos/mes`). -/
def generar_historial_vuelos_mes (data : Option (List PyVal)) (mes : String) :
    Py (Option String) :=
  cap280 (generar_historial_vuelos_mes_text data mes)

/-- One line of `generar_destinos_internacionales` for one payload item. -/
def destinos_row (x : PyVal) : Py String :=
  match asDict x with
  | .error e => .error e
  | .ok it =>
    match pySliceV (dictGetD it "Pais Destino Nombre" (.str "Desconocido")) 15 with
    | .error e => .error e
    | .ok pais =>
      match fmtCommaV (dictGetD it "total_vuelos" (.int 0)) with
      | .error e => .error e
      | .ok vs => .ok (pais ++ ": " ++ vs ++ " vuelos\n")

/-- `generar_destinos_internacionales`, before the final `[:280]`.  Note: the
source takes `data[:3]` as given — no magnitude filter and no sorting. -/
def generar_destinos_internacionales_text (data : Option (List PyVal)) (mes : String) :
    Py (Option String) :=
  let mesF := format_month_name mes
  if !optListTruthy data then .ok Option.none
  else
    let top_3 := (data.getD []).take 3
    match top_3.mapM destinos_row with
    | .error e => .error e
    | .ok rows =>
      let lines := String.join ((rows.zip medals3).map (fun rm => rm.2 ++ " " ++ rm.1))
      .ok (some ("🌍 ¿A dónde volamos en " ++ mesF ++ "?\nTop destinos internacionales:\n\n" ++
        lines ++ "\naviadata.ar\n#DestinosInternacionales #" ++ stripSpaces mesF))

/-- `generar_destinos_internacionales` (endpoint `/vuelos/paises`). -/
def generar_destinos_internacionales (data : Option (List PyVal)) (mes : String) :
    Py (Option String) :=
  cap280 (generar_destinos_internacionales_text data mes)

/-- The route-parsing loop shared verbatim by `generar_rutas_transitadas` and
`generar_rutas_internacionales`: keep items with a truthy route and a numeric
positive count, split "SABE-SACO" into origin/destination (whole label and ""
when the split does not give two parts). -/
def rutas_parse (l : List PyVal) : Py (List (String × String × Int)) :=
  l.foldlM (fun acc x => show Py (List (String × String × Int)) from
    match asDict x with
    | .error e => .error e
    | .ok it =>
      let ruta := pyOr (dictGet it "Ruta") (dictGet it "ruta")
      let vuelos := pyOr (dictGet it "Cantidad")
        (pyOr (dictGet it "total_vuelos") (pyOr (dictGet it "vuelos") (.int 0)))
      if truthy ruta && isNum vuelos && decide ((0 : Rat) < toRat vuelos) then
        let od :=
          match splitOnChar '-' (pyStr ruta) with
          | [o, d] => (o, d)
          | _ => (pyStr ruta, "")
        .ok (acc ++ [(od.1, od.2, pyTruncV vuelos)])
      else .ok acc) []

/-- `generar_rutas_transitadas`, before the final `[:280]`. -/
def generar_rutas_transitadas_text (data : Option (List PyVal)) (mes : String) :
    Py (Option String) :=
  let mesF := format_month_name mes
  if !optListTruthy data then .ok Option.none
  else
    match rutas_parse (data.getD []) with
    | .error e => .error e
    | .ok rutas =>
      if rutas.isEmpty then .ok Option.none
      else
        let top := (sortDescByRat (fun r => (r.2.2 : Rat)) rutas).take 3
        let lines := String.join ((top.zip medals3).map (fun tm =>
          tm.2 ++ " " ++ tm.1.1 ++ " → " ++ tm.1.2.1 ++ ": " ++
          fmtCommaInt tm.1.2.2 ++ " vuelos\n"))
        .ok (some ("🛣️ Rutas más transitadas " ++ mesF ++ "\n\n" ++ lines ++
          "\naviadata.ar\n#Rutas #" ++ stripSpaces mesF))

/-- `generar_rutas_transitadas` (endpoint `/vuelos/rutas`). -/
def generar_rutas_transitadas (data : Option (List PyVal)) (mes : String) :
    Py (Option String) :=
  cap280 (generar_rutas_transitadas_text data mes)

/-- `generar_aeropuertos_activos`, before the final `[:280]`. -/
def generar_aeropuertos_activos_text (data : Option (List PyVal)) (mes : String) :
    Py (Option String) :=
  let mesF := format_month_name mes
  if !optListTruthy data then .ok Option.none
  else
    match (data.getD []).foldlM (fun acc x => show Py (List (String × Int)) from
      match asDict x with
      | .error e => .error e
      | .ok it =>
        let code := pyOr (dictGet it "Aeropuerto")
          (pyOr (dictGet it "Codigo") (dictGet it "code"))
        let count := pyOr (dictGet it "Cantidad")
          (pyOr (dictGet it "total_vuelos") (pyOr (dictGet it "vuelos") (.int 0)))
        if truthy code && isNum count && decide ((0 : Rat) < toRat count) then
          .ok (acc ++ [(pyStr code, pyTruncV count)])
        else .ok acc) [] with
    | .error e => .error e
    | .ok parsed =>
      if parsed.isEmpty then .ok Option.none
      else
        let top := (sortDescByRat (fun p => (p.2 : Rat)) parsed).take 3
        let lines := String.join ((top.zip medals3).map (fun tm =>
          tm.2 ++ " " ++ tm.1.1 ++ ": " ++ fmtCommaInt tm.1.2 ++ " vuelos\n"))
        .ok (some ("🛫 Aeropuertos más activos " ++ mesF ++ "\n\n" ++ lines ++
          "\naviadata.ar\n#Aeropuertos #" ++ stripSpaces mesF))

/-- `generar_aeropuertos_activos` (endpoint `/vuelos/aeropuerto`). -/
def generar_aeropuertos_activos (data : Option (List PyVal)) (mes : String) :
    Py (Option String) :=
  cap280 (generar_aeropuertos_activos_text data mes)

/-- Months accepted by `datetime.strptime(mes + "-01", "%Y-%m-%d")`: exactly
four year digits (year ≥ 1, else `ValueError`), a dash, and a one- or
two-digit month in 1..12. -/
def parseYM (mes : String) : Option (Nat × Nat) :=
  match splitOnChar '-' mes with
  | [ys, ms] =>
    if ys.length = 4 && decide (1 ≤ ms.length) && decide (ms.length ≤ 2) then
      match digitsToNat? ys.data, digitsToNat? ms.data with
      | some y, some m =>
        if 1 ≤ y && 1 ≤ m && m ≤ 12 then some (y, m) else Option.none
      | _, _ => Option.none
    else Option.none
  | _ => Option.none

/-- `strftime("%Y-%m")`: the year is printed without padding (glibc), the
month zero-padded to two digits. -/
def fmtYM (y m : Nat) : String :=
  toString y ++ "-" ++ (if m < 10 then "0" ++ toString m else toString m)

/-- `TwitterContentGenerator._get_prev_month`: parse "YYYY-MM", subtract one
day from the 1st, and format the result; any exception (parse failure, or the
`OverflowError` from stepping before `datetime.min` at year 1, month 1) gives
`None`. -/
def _get_prev_month (mes : String) : Option String :=
  match parseYM mes with
  | some ym =>
    if ym.1 = 1 && ym.2 = 1 then Option.none
    else if ym.2 = 1 then some (fmtYM (ym.1 - 1) 12)
    else some (fmtYM ym.1 (ym.2 - 1))
  | Option.none => Option.none

/-- Key of the airport dict comprehensions in `generar_comparativa_aeropuertos`:
`str(x.get("Aeropuerto") or x.get("Codigo") or "")`. -/
def aeropuertoKey (it : Item) : String :=
  pyStr (pyOr (dictGet it "Aeropuerto") (pyOr (dictGet it "Codigo") (.str "")))

/-- Python dict insert-or-overwrite: first-insertion position is kept,
the value is updated. -/
def dictUpsert (m : List (String × Int)) (k : String) (v : Int) :
    List (String × Int) :=
  if m.any (fun p => p.1 = k) then m.map (fun p => if p.1 = k then (k, v) else p)
  else m ++ [(k, v)]

/-- The dict comprehension
`{str(x.get("Aeropuerto") or ...): int(x.get("Cantidad") or 0) for x in l}`. -/
def buildAirportMap (l : List PyVal) : Py (List (String × Int)) :=
  l.foldlM (fun m x => show Py (List (String × Int)) from
    match asDict x with
    | .error e => .error e
    | .ok it =>
      match pyInt (pyOr (dictGet it "Cantidad") (.int 0)) with
      | .error e => .error e
      | .ok v => .ok (dictUpsert m (aeropuertoKey it) v)) []

/-- `generar_comparativa_aeropuertos`, before the final `[:280]`. -/
def generar_comparativa_aeropuertos_text (actual anterior : Option (List PyVal))
    (mes : String) : Py (Option String) :=
  let mes_act := format_month_name mes
  let prev_mes := _get_prev_month mes
  if !optListTruthy actual || !optListTruthy anterior || prev_mes.isNone then
    .ok Option.none
  else
    match buildAirportMap (actual.getD []) with
    | .error e => .error e
    | .ok map_act =>
      match buildAirportMap (anterior.getD []) with
      | .error e => .error e
      | .ok map_prev =>
        let comps := map_act.foldl (fun acc p =>
          let prev := (map_prev.lookup p.1).getD 0
          if 0 < prev then
            acc ++ [(p.1, p.2, ((p.2 - prev : Int) : Rat) / (prev : Rat) * 100)]
          else acc) []
        if comps.isEmpty then .ok Option.none
        else
          let top := (sortDescByRat (fun c => c.2.2) comps).take 3
          let lines := String.join (top.map (fun c =>
            (if (0 : Rat) ≤ c.2.2 then "⬆️" else "⬇️") ++ " " ++ c.1 ++ ": " ++
            fmtCommaInt c.2.1 ++ " vuelos (" ++ fmtFloatN 1 c.2.2 ++ "%)\n"))
          let prevName :=
            match prev_mes with
            | some pm => format_month_name pm
            | Option.none => ""
          .ok (some ("🏟️ Aeropuertos: variación vs " ++ prevName ++ "\n" ++
            mes_act ++ "\n\n" ++ lines ++ "\naviadata.ar\n#Comparativa #" ++
            stripSpaces mes_act))

/-- `generar_comparativa_aeropuertos` (endpoint `/vuelos/aeropuerto`, current
and previous month). -/
def generar_comparativa_aeropuertos (actual anterior : Option (List PyVal))
    (mes : String) : Py (Option String) :=
  cap280 (generar_comparativa_aeropuertos_text actual anterior mes)

/-- The `best_day` closure of `generar_records_curiosidades`: first item with
the maximal `int(x.get(key_name) or 0)`; any exception inside the `try` gives
`None`. -/
def best_day (items : List PyVal) (key_name : String) : Option (PyVal × Int) :=
  if items.isEmpty then Option.none
  else
    match items.mapM (fun x => show Py (Item × Int) from
      match asDict x with
      | .error e => .error e
      | .ok it =>
        match pyInt (pyOr (dictGet it key_name) (.int 0)) with
        | .error e => .error e
        | .ok v => .ok (it, v)) with
    | .error _ => Option.none
    | .ok pairs =>
      match pairs with
      | [] => Option.none
      | p0 :: rest =>
        let top := rest.foldl (fun best p => if best.2 < p.2 then p else best) p0
        some (pyOr (dictGet top.1 "Fecha") (pyOr (dictGet top.1 "fecha") (.str "")),
          top.2)

/-- `generar_records_curiosidades`, before the final `[:280]`. -/
def generar_records_curiosidades_text (vuelos_diario pax_diario : Option (List PyVal))
    (mes : String) : Py (Option String) :=
  let mesF := format_month_name mes
  if !optListTruthy vuelos_diario && !optListTruthy pax_diario then .ok Option.none
  else
    let vuelos_top := best_day (vuelos_diario.getD []) "Cantidad"
    let pax_top := best_day (pax_diario.getD []) "Cantidad"
    if vuelos_top.isNone && pax_top.isNone then .ok Option.none
    else
      let l1 :=
        match vuelos_top with
        | some fv => "✈️ Día con más vuelos: " ++ pyStr fv.1 ++ " (" ++
            fmtCommaInt fv.2 ++ ")\n"
        | Option.none => ""
      let l2 :=
        match pax_top with
        | some fp => "👥 Día con más pasajeros: " ++ pyStr fp.1 ++ " (" ++
            fmtCommaInt fp.2 ++ ")\n"
        | Option.none => ""
      .ok (some ("🧠 Récords y curiosidades " ++ mesF ++ "\n\n" ++ l1 ++ l2 ++
        "\naviadata.ar\n#Curiosidades #Records"))

/-- `generar_records_curiosidades` (endpoints `/vuelos/diario`,
`/pasajeros/diario`). -/
def generar_records_curiosidades (vuelos_diario pax_diario : Option (List PyVal))
    (mes : String) : Py (Option String) :=
  cap280 (generar_records_curiosidades_text vuelos_diario pax_diario mes)

/-- `generar_aerolineas_inusuales`, before the final `[:280]`. -/
def generar_aerolineas_inusuales_text (aerolineas_mes : Option (List PyVal))
    (mes : String) : Py (Option String) :=
  let mesF := format_month_name mes
  if !optListTruthy aerolineas_mes then .ok Option.none
  else
    match (aerolineas_mes.getD []).foldlM (fun (acc : Int) x => show Py Int from
      match asDict x with
      | .error e => .error e
      | .ok it =>
        match pyInt (pyOr (dictGet it "Cantidad")
          (pyOr (dictGet it "total_vuelos") (.int 0))) with
        | .error e => .error e
        | .ok v => .ok (acc + v)) 0 with
    | .error e => .error e
    | .ok total =>
      if total ≤ 0 then .ok Option.none
      else
        match (aerolineas_mes.getD []).mapM (fun x => show Py (String × Int × Rat) from
          match asDict x with
          | .error e => .error e
          | .ok it =>
            let nombre := pyOr (dictGet it "Aerolinea Nombre")
              (pyOr (dictGet it "nombre") (pyOr (dictGet it "Aerolinea") (.str "Desconocida")))
            match pyInt (pyOr (dictGet it "Cantidad")
              (pyOr (dictGet it "total_vuelos") (.int 0))) with
            | .error e => .error e
            | .ok cnt =>
              .ok (pySlice (pyStr nombre) 20, cnt, ((cnt : Rat) / (total : Rat)) * 100)) with
        | .error e => .error e
        | .ok parts =>
          let candidates := parts.filter (fun p => 0 < p.2.1)
          if candidates.isEmpty then .ok Option.none
          else
            let top := (sortAscByRat (fun p => p.2.2) candidates).take 3
            let lines := String.join (top.map (fun p =>
              "• " ++ p.1 ++ ": " ++ fmtCommaInt p.2.1 ++ " vuelos (" ++
              fmtFloatN 2 p.2.2 ++ "%)\n"))
            .ok (some ("🧐 Aerolíneas inusuales " ++ mesF ++
              "\n(Participación muy baja)\n\n" ++ lines ++
              "\naviadata.ar\n#Aerolíneas #Inusual"))

/-- `generar_aerolineas_inusuales` (endpoint `/vuelos/aerolinea`). -/
def generar_aerolineas_inusuales (aerolineas_mes : Option (List PyVal))
    (mes : String) : Py (Option String) :=
  cap280 (generar_aerolineas_inusuales_text aerolineas_mes mes)

/-- The `fmt_change` closure of `generar_comparativa_mensual`: percentage
change, with 0.0 for a falsy denominator and 0.0 when the arithmetic raises
(`try`/`except` in the source). -/
def fmt_change (a b : PyVal) : Rat :=
  if truthy b && isNum a && isNum b then (toRat a - toRat b) / toRat b * 100 else 0

/-- `generar_comparativa_mensual`, before the final `[:280]`. -/
def generar_comparativa_mensual_text (kpis_actual kpis_anterior : Option Item)
    (mes : String) : Py (Option String) :=
  let mes_act := format_month_name mes
  let prev_mes := _get_prev_month mes
  if !optDictTruthy kpis_actual || !optDictTruthy kpis_anterior || prev_mes.isNone then
    .ok Option.none
  else
    let ka := kpis_actual.getD []
    let kp := kpis_anterior.getD []
    let v_act := dictGetD ka "total_vuelos" (.int 0)
    let v_prev := dictGetD kp "total_vuelos" (.int 0)
    let p_act := dictGetD ka "total_pasajeros" (.int 0)
    let p_prev := dictGetD kp "total_pasajeros" (.int 0)
    let o_act := dictGetD ka "ocupacion_promedio" (.float 0)
    let o_prev := dictGetD kp "ocupacion_promedio" (.float 0)
    let prevName :=
      match prev_mes with
      | some pm => format_month_name pm
      | Option.none => ""
    match fmtCommaV v_act with
    | .error e => .error e
    | .ok vs =>
    match fmtCommaV p_act with
    | .error e => .error e
    | .ok ps =>
    match fmtFloat1V o_act with
    | .error e => .error e
    | .ok oc =>
    .ok (some ("🔄 Comparativa mensual (" ++ mes_act ++ " vs " ++ prevName ++ ")\n\n" ++
      "✈️ Vuelos: " ++ vs ++ " (" ++ fmtFloatN 1 (fmt_change v_act v_prev) ++ "%)\n" ++
      "👥 Pasajeros: " ++ ps ++ " (" ++ fmtFloatN 1 (fmt_change p_act p_prev) ++ "%)\n" ++
      "📊 Ocupación: " ++ oc ++ "% (" ++ fmtFloatN 1 (fmt_change o_act o_prev) ++ "%)\n" ++
      "\naviadata.ar\n#Comparativa #Mensual"))

/-- `generar_comparativa_mensual` (endpoint `/vuelos/kpis`, current and
previous month). -/
def generar_comparativa_mensual (kpis_actual kpis_anterior : Option Item)
    (mes : String) : Py (Option String) :=
  cap280 (generar_comparativa_mensual_text kpis_actual kpis_anterior mes)

/-- `generar_rutas_internacionales`, before the final `[:280]`. -/
def generar_rutas_internacionales_text (data : Option (List PyVal)) (mes : String) :
    Py (Option String) :=
  let mesF := format_month_name mes
  if !optListTruthy data then .ok Option.none
  else
    match rutas_parse (data.getD []) with
    | .error e => .error e
    | .ok rutas =>
      if rutas.isEmpty then .ok Option.none
      else
        let top := (sortDescByRat (fun r => (r.2.2 : Rat)) rutas).take 3
        let lines := String.join ((top.zip medals3).map (fun tm =>
          tm.2 ++ " " ++ tm.1.1 ++ " → " ++ tm.1.2.1 ++ ": " ++
          fmtCommaInt tm.1.2.2 ++ " vuelos\n"))
        .ok (some ("🌍 Rutas internacionales más transitadas " ++ mesF ++ "\n\n" ++
          lines ++ "\naviadata.ar\n#RutasInternacionales #" ++ stripSpaces mesF))

/-- `generar_rutas_internacionales` (endpoint `/vuelos/rutas`). -/
def generar_rutas_internacionales (data : Option (List PyVal)) (mes : String) :
    Py (Option String) :=
  cap280 (generar_rutas_internacionales_text data mes)

/-- `generar_promedios_clase`, before the final `[:280]`. -/
def generar_promedios_clase_text (data : Option (List PyVal)) (mes : String) :
    Py (Option String) :=
  let mesF := format_month_name mes
  if !optListTruthy data then .ok Option.none
  else
    match (data.getD []).foldlM (fun acc x => show Py (List (String × Int)) from
      match asDict x with
      | .error e => .error e
      | .ok it =>
        let nombre := pyOr (dictGet it "Clase Nombre")
          (pyOr (dictGet it "clase") (pyOr (dictGet it "Clase") (.str "Desconocida")))
        let cnt := pyOr (dictGet it "Cantidad") (pyOr (dictGet it "total_vuelos") (.int 0))
        if isNum cnt && decide ((0 : Rat) < toRat cnt) then
          .ok (acc ++ [(pySlice (pyStr nombre) 18, pyTruncV cnt)])
        else .ok acc) [] with
    | .error e => .error e
    | .ok parsed =>
      if parsed.isEmpty then .ok Option.none
      else
        let top := (sortDescByRat (fun p => (p.2 : Rat)) parsed).take 3
        let lines := String.join ((top.zip medals3).map (fun tm =>
          tm.2 ++ " " ++ tm.1.1 ++ ": " ++ fmtCommaInt tm.1.2 ++ " vuelos\n"))
        .ok (some ("🧭 Clases más usadas " ++ mesF ++ "\n\n" ++ lines ++
          "\naviadata.ar\n#Clases #" ++ stripSpaces mesF))

/-- `generar_promedios_clase` (endpoint `/vuelos/clase`). -/
def generar_promedios_clase (data : Option (List PyVal)) (mes : String) :
    Py (Option String) :=
  cap280 (generar_promedios_clase_text data mes)

/-- The `top_names` closure of `generar_recap_grafico`. -/
def top_names (items : Option (List PyVal)) (key_name : String) : Py (List String) :=
  match items with
  | Option.none => .ok []
  | some l =>
    if l.isEmpty then .ok []
    else
      match l.foldlM (fun acc x => show Py (List (String × Int)) from
        match asDict x with
        | .error e => .error e
        | .ok it =>
          let nombre := pyOr (dictGet it key_name) (pyOr (dictGet it "nombre") (.str "-"))
          let cnt := pyOr (dictGet it "Cantidad") (pyOr (dictGet it "total_vuelos") (.int 0))
          if isNum cnt && decide ((0 : Rat) < toRat cnt) then
            .ok (acc ++ [(pySlice (pyStr nombre) 18, pyTruncV cnt)])
          else .ok acc) [] with
      | .error e => .error e
      | .ok parsed =>
        .ok (((sortDescByRat (fun p => (p.2 : Rat)) parsed).take 3).map Prod.fst)

/-- `generar_recap_grafico`, before the final `[:280]`. -/
def generar_recap_grafico_text (kpis : Option Item)
    (aerolineas aeropuertos : Option (List PyVal)) (mes : String) :
    Py (Option String) :=
  let mesF := format_month_name mes
  if !optDictTruthy kpis then .ok Option.none
  else
    let k := kpis.getD []
    let v := dictGetD k "total_vuelos" (.int 0)
    let p := dictGetD k "total_pasajeros" (.int 0)
    let o := dictGetD k "ocupacion_promedio" (.float 0)
    match top_names aerolineas "Aerolinea Nombre" with
    | .error e => .error e
    | .ok top_aero =>
    match top_names aeropuertos "Aeropuerto" with
    | .error e => .error e
    | .ok top_airp =>
    match fmtCommaV v with
    | .error e => .error e
    | .ok vs =>
    match fmtCommaV p with
    | .error e => .error e
    | .ok ps =>
    match fmtFloat1V o with
    | .error e => .error e
    | .ok oc =>
    .ok (some ("🧾 Recap " ++ mesF ++ "\n✈️ " ++ vs ++ " vuelos | 👥 " ++ ps ++
      " pax | 📊 " ++ oc ++ "% ocupación\n" ++
      (if top_aero.isEmpty then ""
       else "🏆 Aerolíneas top: " ++ String.intercalate ", " top_aero ++ "\n") ++
      (if top_airp.isEmpty then ""
       else "🛫 Aeropuertos top: " ++ String.intercalate ", " top_airp ++ "\n") ++
      "\naviadata.ar\n#Resumen #Aviación"))

/-- `generar_recap_grafico` (endpoints `/vuelos/kpis`, `/vuelos/aerolinea`,
`/vuelos/aeropuerto`). -/
def generar_recap_grafico (kpis : Option Item)
    (aerolineas aeropuertos : Option (List PyVal)) (mes : String) :
    Py (Option String) :=
  cap280 (generar_recap_grafico_text kpis aerolineas aeropuertos mes)

/-- A row of the `tweets_log` table, as written by `TwitterBotLogger.log_tweet`
(append-only; `id`/timestamp columns are omitted, they never influence the
bot's decisions). -/
structure PostRecord where
  tweet_text : String
  status : String
  tipo_post : String
  mes_relacionado : Option String
  dia_cronograma : Option Nat
  tweet_id : Option String
  error_message : Option String
  api_data : Option String
deriving DecidableEq, Repr

/-- Predicate of the `check_post_exists` SQL query: rows matching
`tipo_post = ? AND mes_relacionado = ? AND dia_cronograma = ? AND
status = 'success'`. -/
def matchesSlot (tipo_post : String) (mes_relacionado : String)
    (dia_cronograma : Nat) (r : PostRecord) : Bool :=
  r.tipo_post = tipo_post && r.mes_relacionado = some mes_relacionado &&
  r.dia_cronograma = some dia_cronograma && r.status = "success"

/-- `SELECT COUNT(*)` of the dedup query over the log. -/
def countSuccess (log : List PostRecord) (tipo_post mes_relacionado : String)
    (dia_cronograma : Nat) : Nat :=
  (log.filter (matchesSlot tipo_post mes_relacionado dia_cronograma)).length

/-- `TwitterBotLogger.check_post_exists` on a readable store: `count > 0`. -/
def check_post_exists (log : List PostRecord) (tipo_post mes_relacionado : String)
    (dia_cronograma : Nat) : Bool :=
  decide (0 < countSuccess log tipo_post mes_relacionado dia_cronograma)

/-- The `bot_state` key-value table, insertion-ordered with upsert semantics
(`INSERT OR REPLACE`). -/
abbrev BotKV := List (String × String)

/-- `TwitterBotLogger.get_bot_state` on a readable store. -/
def get_bot_state (kv : BotKV) (key : String) : Option String := kv.lookup key

/-- `TwitterBotLogger.set_bot_state` (`INSERT OR REPLACE`). -/
def set_bot_state (kv : BotKV) (key value : String) : BotKV :=
  (key, value) :: kv.filter (fun p => p.1 ≠ key)

/-- `TwitterBotLogger.check_post_exists` in full: the `try`/`except` returns
`False` ("assume not yet posted") on any storage error. -/
def check_post_exists_store (store : Except String (List PostRecord))
    (tipo_post mes_relacionado : String) (dia_cronograma : Nat) : Bool :=
  match store with
  | .ok log => check_post_exists log tipo_post mes_relacionado dia_cronograma
  | .error _ => false

/-- `TwitterBotLogger.get_bot_state` in full: the `try`/`except` returns
`None` ("assume no prior state") on any storage error. -/
def get_bot_state_store (store : Except String BotKV) (key : String) :
    Option String :=
  match store with
  | .ok kv => get_bot_state kv key
  | .error _ => Option.none

/-- Outcome of one `twitter_api.create_tweet` call. -/
inductive TweetOutcome where
  /-- The call returns a response with `response.data` carrying the new id. -/
  | posted (id : String) : TweetOutcome
  /-- The call returns but without valid `response.data`. -/
  | invalidResponse : TweetOutcome
  /-- The call raises `tweepy.TweepyException` with message `msg`. -/
  | apiError (msg : String) : TweetOutcome
  /-- The call raises some other exception. -/
  | otherError : TweetOutcome

/-- External world of one bot run: outcomes of the Twitter client and of the
backend API.  `content` models the result of
`generate_content_for_post_type tipo mes`, which catches every exception and
returns an optional text; `rangoMeses` is the decoded JSON object of the
`/aeropuertos/rango-meses` response (`None` on transport/decoding error).  The
(month-range) response object is modelled with string values, as delivered by
the backend. -/
structure Env where
  apiConfigured : Bool
  content : String → String → Option String
  tweet : String → TweetOutcome
  rangoMeses : Option (List (String × String))

/-- Defensive truncation at the top of `TwitterBot.send_tweet`: text over 280
characters is cut to 277 and `"..."` is appended. -/
def defensiveTruncate (text : String) : String :=
  if 280 < text.length then pySlice text 277 ++ "..." else text

/-- The success row written by `send_tweet` via `log_tweet`. -/
def success_record (text tipo_post : String) (mes_relacionado : Option String)
    (dia_cronograma : Option Nat) (tweet_id : String) : PostRecord :=
  { tweet_text := text, status := "success", tipo_post, mes_relacionado,
    dia_cronograma, tweet_id := some tweet_id, error_message := Option.none,
    api_data := Option.none }

/-- The error row written by `send_tweet` via `log_tweet` on a
`tweepy.TweepyException`. -/
def error_record (text tipo_post : String) (mes_relacionado : Option String)
    (dia_cronograma : Option Nat) (error_message : String) : PostRecord :=
  { tweet_text := text, status := "error", tipo_post, mes_relacionado,
    dia_cronograma, tweet_id := Option.none,
    error_message := some error_message, api_data := Option.none }

/-- `TwitterBot.send_tweet`: truncate defensively, call the client, and log a
success or error `PostRecord`; returns whether the tweet was sent.  The write
path of `log_tweet` is modelled as reliable (its own storage `try`/`except` is
the subject of the store-level definitions above). -/
def send_tweet (env : Env) (text : String) (tipo_post : String)
    (mes_relacionado : Option String) (dia_cronograma : Option Nat)
    (log : List PostRecord) : Bool × List PostRecord :=
  if !env.apiConfigured then (false, log)
  else
    let text := defensiveTruncate text
    match env.tweet text with
    | .posted id =>
      (true, log ++ [success_record text tipo_post mes_relacionado dia_cronograma id])
    | .invalidResponse => (false, log)
    | .apiError msg =>
      (false, log ++ [error_record text tipo_post mes_relacionado dia_cronograma msg])
    | .otherError => (false, log)

/-- `TwitterBotConfig.CRONOGRAMA_POSTS`: day of month → content type, in
insertion (day-ascending) order. -/
def CRONOGRAMA_POSTS : List (Nat × String) :=
  [(0, "resumen_mensual"), (2, "top_aerolineas"), (4, "rutas_transitadas"),
   (6, "aeropuertos_activos"), (8, "destinos_internacionales"),
   (10, "evolucion_historica"), (12, "ocupacion_promedio"),
   (14, "comparativa_aeropuertos"), (16, "records_curiosidades"),
   (18, "aerolineas_inusuales"), (20, "comparativa_mensual"),
   (22, "historial_vuelos_mes"), (24, "promedios_clase"), (26, "recap_grafico")]

/-- `TwitterBot.execute_scheduled_post`: look up the day's configuration,
return early (with success) when a successful record already exists, else
generate content and publish.  Returns the bot's boolean result and the log
after the call. -/
def execute_scheduled_post (env : Env) (dia_cronograma : Nat) (mes : String)
    (log : List PostRecord) : Bool × List PostRecord :=
  match CRONOGRAMA_POSTS.lookup dia_cronograma with
  | Option.none => (false, log)
  | some tipo_post =>
    if check_post_exists log tipo_post mes dia_cronograma then (true, log)
    else
      match env.content tipo_post mes with
      | some tweet_text =>
        send_tweet env tweet_text tipo_post (some mes) (some dia_cronograma) log
      | Option.none => (false, log)

/-- In-memory view of the persisted bot state: the append-only tweet log and
the `bot_state` table. -/
structure BotSt where
  log : List PostRecord
  kv : BotKV
deriving Repr

/-- The body of one iteration of the catch-up loop of
`TwitterBot.verificar_posts_pendientes` over one schedule entry `e`. -/
def pendientes_step (env : Env) (dia_actual : Nat) (mes_actual : String)
    (acc : BotSt × List Nat) (e : Nat × String) : BotSt × List Nat :=
  if e.1 ≤ dia_actual then
    if check_post_exists acc.1.log e.2 mes_actual e.1 then acc
    else
      ({ acc.1 with log := (execute_scheduled_post env e.1 mes_actual acc.1.log).2 },
       acc.2 ++ [e.1])
  else acc

/-- `TwitterBot.verificar_posts_pendientes`: with no publishing month, do
nothing; otherwise walk the schedule in order and execute every entry whose
day is at most today's day-of-month and which has no successful record yet.
Also returns the list of days that were attempted (the `execute_scheduled_post`
calls made). -/
def verificar_posts_pendientes (env : Env) (dia_actual : Nat) (s : BotSt) :
    BotSt × List Nat :=
  match get_bot_state s.kv "current_publishing_month" with
  | Option.none => (s, [])
  | some mes_actual =>
    CRONOGRAMA_POSTS.foldl (pendientes_step env dia_actual mes_actual) (s, [])

/-- `AviationAPIClient.get_latest_month`: the `mes_maximo` field of a truthy
month-range response, else `None`. -/
def get_latest_month (resp : Option (List (String × String))) : Option String :=
  match resp with
  | Option.none => Option.none
  | some data => if data.isEmpty then Option.none else data.lookup "mes_maximo"

/-- `TwitterBot.verificar_nuevo_mes`: compare the backend's latest month with
the stored `current_publishing_month`; on mismatch, store the new month and
immediately execute the day-0 entry for it.  Also returns the day that was
executed, if any. -/
def verificar_nuevo_mes (env : Env) (s : BotSt) : BotSt × Option Nat :=
  match get_latest_month env.rangoMeses with
  | Option.none => (s, Option.none)
  | some mes_mas_reciente =>
    let mes_actual := get_bot_state s.kv "current_publishing_month"
    if mes_actual = some mes_mas_reciente then (s, Option.none)
    else
      let kv := set_bot_state s.kv "current_publishing_month" mes_mas_reciente
      ({ log := (execute_scheduled_post env 0 mes_mas_reciente s.log).2, kv := kv },
       some 0)

/-- States of the persisted bot state reachable by a sequential run: from the
freshly initialized database, by any interleaving of direct
`execute_scheduled_post` calls (scheduler, `/force`, `/force-next`, CLI), the
pending-posts catch-up job and the month-rollover job, under arbitrary
environments. -/
inductive Reachable : BotSt → Prop where
  | init : Reachable ⟨[], []⟩
  | exec (env : Env) (dia : Nat) (mes : String) {s : BotSt} : Reachable s →
      Reachable ⟨(execute_scheduled_post env dia mes s.log).2, s.kv⟩
  | pendientes (env : Env) (dia_actual : Nat) {s : BotSt} : Reachable s →
      Reachable (verificar_posts_pendientes env dia_actual s).1
  | nuevoMes (env : Env) {s : BotSt} : Reachable s →
      Reachable (verificar_nuevo_mes env s).1
  | setState (key value : String) {s : BotSt} : Reachable s →
      Reachable ⟨s.log, set_bot_state s.kv key value⟩

/-- The spec's deduplication invariant: for every
(content type, month, schedule day) slot, at most one success record. -/
def DedupInvariant (log : List PostRecord) : Prop :=
  ∀ tipo_post mes_relacionado dia_cronograma,
    countSuccess log tipo_post mes_relacionado dia_cronograma ≤ 1

lemma countSuccess_append (log₁ log₂ : List PostRecord) (t m : String) (d : Nat) :
    countSuccess (log₁ ++ log₂) t m d = countSuccess log₁ t m d + countSuccess log₂ t m d := by
  simp [countSuccess, List.filter_append]

lemma countSuccess_single (r : PostRecord) (t m : String) (d : Nat) :
    countSuccess [r] t m d = if matchesSlot t m d r then 1 else 0 := by
  cases h : matchesSlot t m d r <;> simp [countSuccess, List.filter, h]

lemma check_post_exists_false_iff (log : List PostRecord) (t m : String) (d : Nat) :
    check_post_exists log t m d = false ↔ countSuccess log t m d = 0 := by
  simp [check_post_exists]

lemma dedup_append_success {log : List PostRecord} (h : DedupInvariant log)
    (r : PostRecord) (t0 m0 : String) (d0 : Nat)
    (ht : r.tipo_post = t0) (hm : r.mes_relacionado = some m0)
    (hd : r.dia_cronograma = some d0) (h0 : countSuccess log t0 m0 d0 = 0) :
    DedupInvariant (log ++ [r]) := by
  intro t m d
  rw [countSuccess_append, countSuccess_single]
  split
  case isTrue hms =>
    simp only [matchesSlot, Bool.and_eq_true, decide_eq_true_eq] at hms
    obtain ⟨⟨⟨h1, h2⟩, h3⟩, _⟩ := hms
    rw [ht] at h1
    rw [hm] at h2
    rw [hd] at h3
    obtain rfl := h1.symm
    obtain rfl := Option.some.inj h2.symm
    obtain rfl := Option.some.inj h3.symm
    omega
  case isFalse =>
    have := h t m d
    omega

lemma dedup_append_error {log : List PostRecord} (h : DedupInvariant log)
    (r : PostRecord) (hr : r.status ≠ "success") :
    DedupInvariant (log ++ [r]) := by
  intro t m d
  rw [countSuccess_append, countSuccess_single]
  have hms : matchesSlot t m d r = false := by
    simp only [matchesSlot, Bool.and_eq_false_iff]
    right
    simpa using hr
  simp only [hms, Bool.false_eq_true, if_false]
  have := h t m d
  omega

/-- `execute_scheduled_post` preserves the dedup invariant: the only append of
a success record happens after the dedup check found no success record for
exactly that slot. -/
lemma exec_preserves_dedup (env : Env) (dia : Nat) (mes : String)
    {log : List PostRecord} (h : DedupInvariant log) :
    DedupInvariant (execute_scheduled_post env dia mes log).2 := by
  unfold execute_scheduled_post
  cases hc : CRONOGRAMA_POSTS.lookup dia with
  | none => exact h
  | some tipo =>
    simp only
    by_cases hex : check_post_exists log tipo mes dia
    · simp only [hex, if_true]
      exact h
    · rw [Bool.not_eq_true] at hex
      simp only [hex, Bool.false_eq_true, if_false]
      have h0 : countSuccess log tipo mes dia = 0 :=
        (check_post_exists_false_iff log tipo mes dia).mp hex
      cases hct : env.content tipo mes with
      | none => exact h
      | some text =>
        simp only [send_tweet]
        by_cases hcfg : env.apiConfigured
        · simp only [hcfg, Bool.not_true, Bool.false_eq_true, if_false]
          cases htw : env.tweet (defensiveTruncate text) with
          | posted id => exact dedup_append_success h _ tipo mes dia rfl rfl rfl h0
          | invalidResponse => exact h
          | apiError msg => exact dedup_append_error h _ (by simp [error_record])
          | otherError => exact h
        · simp only [Bool.not_eq_true] at hcfg
          simp only [hcfg, Bool.not_false, if_true]
          exact h

/-- The pending-posts catch-up loop preserves the dedup invariant step by
step. -/
lemma pendientes_preserves_dedup (env : Env) (dia_actual : Nat) {s : BotSt}
    (h : DedupInvariant s.log) :
    DedupInvariant (verificar_posts_pendientes env dia_actual s).1.log := by
  unfold verificar_posts_pendientes
  cases hst : get_bot_state s.kv "current_publishing_month" with
  | none => exact h
  | some mes =>
    simp only
    suffices hgen : ∀ (l : List (Nat × String)) (acc : BotSt × List Nat),
        DedupInvariant acc.1.log →
        DedupInvariant ((l.foldl (fun acc e =>
          if e.1 ≤ dia_actual then
            if check_post_exists acc.1.log e.2 mes e.1 then acc
            else
              ({ acc.1 with log := (execute_scheduled_post env e.1 mes acc.1.log).2 },
               acc.2 ++ [e.1])
          else acc) acc).1.log) from hgen CRONOGRAMA_POSTS (s, []) h
    intro l
    induction l with
    | nil => intro acc hacc; exact hacc
    | cons e rest ih =>
      intro acc hacc
      simp only [List.foldl_cons]
      apply ih
      by_cases h1 : e.1 ≤ dia_actual
      · simp only [h1, if_true]
        by_cases h2 : check_post_exists acc.1.log e.2 mes e.1
        · simp only [h2, if_true]
          exact hacc
        · rw [Bool.not_eq_true] at h2
          simp only [h2, Bool.false_eq_true, if_false]
          exact exec_preserves_dedup env e.1 mes hacc
      · simp only [h1, if_false]
        exact hacc

/-- The month-rollover check preserves the dedup invariant. -/
lemma nuevo_mes_preserves_dedup (env : Env) {s : BotSt}
    (h : DedupInvariant s.log) :
    DedupInvariant (verificar_nuevo_mes env s).1.log := by
  unfold verificar_nuevo_mes
  cases hlm : get_latest_month env.rangoMeses with
  | none => exact h
  | some mes =>
    simp only
    by_cases heq : get_bot_state s.kv "current_publishing_month" = some mes
    · simp only [heq, if_true]
      exact h
    · simp only [heq, if_false]
      exact exec_preserves_dedup env 0 mes h

/-- A concrete environment whose Twitter client always posts successfully. -/
def envPostOK : Env :=
  { apiConfigured := true, content := fun _ _ => some "hola",
    tweet := fun _ => .posted "1", rangoMeses := some [("mes_maximo", "2025-10")] }

/-- A concrete environment whose Twitter client always raises a
`TweepyException`. -/
def envApiErr : Env :=
  { apiConfigured := true, content := fun _ _ => some "hola",
    tweet := fun _ => .apiError "403 Forbidden", rangoMeses := Option.none }

/-- C1.  For every (content_type, related_month, schedule_day) triple, at most
one success `PostRecord` exists in the log: `execute_scheduled_post` performs
the `check_post_exists` dedup lookup before any content generation or publish,
and in a single sequential execution every reachable state of the log
satisfies the deduplication invariant. -/
theorem dedup_invariant_of_reachable :
    ∀ s : BotSt, Reachable s → DedupInvariant s.log := by
  intro s h
  induction h with
  | init => intro t m d; simp [countSuccess]
  | exec env dia mes _ ih => exact exec_preserves_dedup env dia mes ih
  | pendientes env dia_actual _ ih => exact pendientes_preserves_dedup env dia_actual ih
  | nuevoMes env _ ih => exact nuevo_mes_preserves_dedup env ih
  | setState key value _ ih => exact ih

/-- Witness for C1: the invariant holds at the concrete state reached by one
successful `execute_scheduled_post` from the fresh database. -/
theorem dedup_invariant_of_reachable_witness :
    DedupInvariant
      (BotSt.mk (execute_scheduled_post envPostOK 0 "2025-09" []).2 []).log :=
  dedup_invariant_of_reachable _
    (Reachable.exec envPostOK 0 "2025-09" Reachable.init)

/-- C10.  `execute_scheduled_post` is idempotent on already-posted slots: when
a successful record exists for the slot, the call returns success with the log
unchanged, independently of the environment (so no fetch, no content
generation, no publish, no append). -/
theorem execute_scheduled_post_idempotent :
    ∀ (env : Env) (dia : Nat) (mes : String) (log : List PostRecord)
      (tipo : String),
      CRONOGRAMA_POSTS.lookup dia = some tipo →
      check_post_exists log tipo mes dia = true →
      execute_scheduled_post env dia mes log = (true, log) := by
  intro env dia mes log tipo hl hc
  unfold execute_scheduled_post
  rw [hl]
  simp [hc]

/-- Witness for C10: a slot with an existing success record is a no-op for an
environment that would otherwise post. -/
theorem execute_scheduled_post_idempotent_witness :
    execute_scheduled_post envPostOK 0 "2025-09"
      [success_record "x" "resumen_mensual" (some "2025-09") (some 0) "1"] =
    (true, [success_record "x" "resumen_mensual" (some "2025-09") (some 0) "1"]) :=
  execute_scheduled_post_idempotent envPostOK 0 "2025-09"
    [success_record "x" "resumen_mensual" (some "2025-09") (some 0) "1"]
    "resumen_mensual" (by decide) (by decide)

/-- C7.  Persistence-store reads never raise and degrade to conservative
defaults: on any storage error `check_post_exists` returns `false` (assume not
yet posted) and `get_bot_state` returns `None` (assume no prior state); on a
readable store they return the actual lookup results. -/
theorem store_reads_degrade_conservatively :
    (∀ (e : String) (t m : String) (d : Nat),
       check_post_exists_store (.error e) t m d = false) ∧
    (∀ (e k : String), get_bot_state_store (.error e) k = Option.none) ∧
    (∀ (log : List PostRecord) (t m : String) (d : Nat),
       check_post_exists_store (.ok log) t m d = check_post_exists log t m d) ∧
    (∀ (kv : BotKV) (k : String),
       get_bot_state_store (.ok kv) k = get_bot_state kv k) :=
  ⟨fun _ _ _ _ => rfl, fun _ _ => rfl, fun _ _ _ _ => rfl, fun _ _ => rfl⟩

lemma countSuccess_eq_zero_of_dia {l2 : List PostRecord} {t m : String} {d : Nat}
    (h : ∀ r ∈ l2, r.dia_cronograma ≠ some d) : countSuccess l2 t m d = 0 := by
  simp only [countSuccess, List.length_eq_zero]
  rw [List.filter_eq_nil_iff]
  intro r hr
  simp only [matchesSlot, Bool.and_eq_true, decide_eq_true_eq]
  intro hc
  exact h r hr hc.1.2

lemma check_append_irrelevant {log l2 : List PostRecord} {t m : String} {d : Nat}
    (h : ∀ r ∈ l2, r.dia_cronograma ≠ some d) :
    check_post_exists (log ++ l2) t m d = check_post_exists log t m d := by
  simp [check_post_exists, countSuccess_append, countSuccess_eq_zero_of_dia h]

/-- Every record `execute_scheduled_post` appends belongs to the executed
schedule day. -/
lemma exec_log_extends (env : Env) (dia : Nat) (mes : String)
    (log : List PostRecord) :
    ∃ ext : List PostRecord, (execute_scheduled_post env dia mes log).2 = log ++ ext ∧
      ∀ r ∈ ext, r.dia_cronograma = some dia := by
  unfold execute_scheduled_post
  cases CRONOGRAMA_POSTS.lookup dia with
  | none => exact ⟨[], by simp, by simp⟩
  | some tipo =>
    simp only
    split
    · exact ⟨[], by simp, by simp⟩
    · cases env.content tipo mes with
      | none => exact ⟨[], by simp, by simp⟩
      | some text =>
        simp only [send_tweet]
        split
        · exact ⟨[], by simp, by simp⟩
        · cases env.tweet (defensiveTruncate text) with
          | posted id =>
            exact ⟨[success_record (defensiveTruncate text) tipo (some mes)
              (some dia) id], rfl, by simp [success_record]⟩
          | invalidResponse => exact ⟨[], by simp, by simp⟩
          | apiError msg =>
            exact ⟨[error_record (defensiveTruncate text) tipo (some mes)
              (some dia) msg], rfl, by simp [error_record]⟩
          | otherError => exact ⟨[], by simp, by simp⟩

/-- The catch-up fold attempts exactly the entries with day at most today and
no success record in the starting log; records appended for one day never
change the dedup check of a different day. -/
lemma pendientes_foldl_attempted (env : Env) (dia_actual : Nat) (mes : String)
    (log₀ : List PostRecord) :
    ∀ (l : List (Nat × String)) (st : BotSt) (att : List Nat),
      (l.map Prod.fst).Nodup →
      (∀ e ∈ l, check_post_exists st.log e.2 mes e.1 =
        check_post_exists log₀ e.2 mes e.1) →
      (l.foldl (pendientes_step env dia_actual mes) (st, att)).2 =
        att ++ (l.filter (fun e => e.1 ≤ dia_actual &&
          !check_post_exists log₀ e.2 mes e.1)).map Prod.fst := by
  intro l
  induction l with
  | nil => intro st att _ _; simp
  | cons e rest ih =>
    intro st att hnd hinv
    rw [List.map_cons, List.nodup_cons] at hnd
    have hnotmem := hnd.1
    have hnd' := hnd.2
    have hce := hinv e (List.mem_cons_self e rest)
    have hinvrest : ∀ e' ∈ rest, check_post_exists st.log e'.2 mes e'.1 =
        check_post_exists log₀ e'.2 mes e'.1 :=
      fun e' he' => hinv e' (List.mem_cons_of_mem e he')
    simp only [List.foldl_cons, List.filter_cons]
    by_cases h1 : e.1 ≤ dia_actual
    · by_cases h2 : check_post_exists st.log e.2 mes e.1
      · have hstep : pendientes_step env dia_actual mes (st, att) e = (st, att) := by
          simp [pendientes_step, h1, h2]
        have hpe : (e.1 ≤ dia_actual && !check_post_exists log₀ e.2 mes e.1) = false := by
          rw [← hce]
          simp [h1, h2]
        rw [hstep, hpe]
        simp only [Bool.false_eq_true, if_false]
        exact ih st att hnd' hinvrest
      · rw [Bool.not_eq_true] at h2
        have hstep : pendientes_step env dia_actual mes (st, att) e =
            ({ st with log := (execute_scheduled_post env e.1 mes st.log).2 },
             att ++ [e.1]) := by
          simp [pendientes_step, h1, h2]
        have hpe : (e.1 ≤ dia_actual && !check_post_exists log₀ e.2 mes e.1) = true := by
          rw [← hce]
          simp [h1, h2]
        rw [hstep, hpe]
        simp only [if_true, List.map_cons]
        obtain ⟨ext, hext, hdias⟩ := exec_log_extends env e.1 mes st.log
        have hinvrest' : ∀ e' ∈ rest,
            check_post_exists (execute_scheduled_post env e.1 mes st.log).2 e'.2 mes e'.1 =
            check_post_exists log₀ e'.2 mes e'.1 := by
          intro e' he'
          rw [hext]
          rw [check_append_irrelevant]
          · exact hinvrest e' he'
          · intro r hr hcontra
            apply hnotmem
            have : e'.1 = e.1 := by
              have := hdias r hr
              rw [this] at hcontra
              exact (Option.some.inj hcontra).symm
            rw [← this]
            exact List.mem_map_of_mem Prod.fst he'
        rw [ih _ (att ++ [e.1]) hnd' hinvrest']
        simp
    · have hstep : pendientes_step env dia_actual mes (st, att) e = (st, att) := by
        simp [pendientes_step, h1]
      have hpe : (e.1 ≤ dia_actual && !check_post_exists log₀ e.2 mes e.1) = false := by
        simp [h1]
      rw [hstep, hpe]
      simp only [Bool.false_eq_true, if_false]
      exact ih st att hnd' hinvrest

lemma lookup_mem_assoc :
    ∀ (l : List (Nat × String)) (k : Nat) (v : String),
      l.lookup k = some v → (k, v) ∈ l := by
  intro l
  induction l with
  | nil => intro k v h; simp [List.lookup] at h
  | cons p rest ih =>
    intro k v h
    rw [List.lookup] at h
    by_cases hk : k = p.1
    · rw [hk] at h ⊢
      simp only [beq_self_eq_true, if_true, Option.some.injEq] at h
      subst h
      exact List.mem_cons_self _ _
    · have hbeq : (k == p.1) = false := beq_eq_false_iff_ne.mpr hk
      rw [hbeq] at h
      simp only [Bool.false_eq_true, if_false] at h
      exact List.mem_cons_of_mem p (ih k v h)

/-- C6.  When the publish call raises an API error, `send_tweet` logs exactly
one error record carrying the error text for the slot, returns failure without
any further attempt, and the success-existence of every slot is unchanged — so
the slot stays pending and is attempted again by the next catch-up tick. -/
theorem send_tweet_api_error_logs_error :
    ∀ (env : Env) (text tipo mes : String) (dia : Nat) (log : List PostRecord)
      (msg : String),
      env.apiConfigured = true →
      env.tweet (defensiveTruncate text) = .apiError msg →
      send_tweet env text tipo (some mes) (some dia) log =
        (false, log ++ [error_record (defensiveTruncate text) tipo (some mes)
          (some dia) msg]) ∧
      (error_record (defensiveTruncate text) tipo (some mes) (some dia) msg).status
        = "error" ∧
      (error_record (defensiveTruncate text) tipo (some mes) (some dia) msg).error_message
        = some msg ∧
      (∀ (t' m' : String) (d' : Nat),
        check_post_exists (log ++ [error_record (defensiveTruncate text) tipo
          (some mes) (some dia) msg]) t' m' d' = check_post_exists log t' m' d') ∧
      (∀ (env₂ : Env) (kv : BotKV) (dia_actual : Nat),
        get_bot_state kv "current_publishing_month" = some mes →
        CRONOGRAMA_POSTS.lookup dia = some tipo →
        dia ≤ dia_actual →
        check_post_exists log tipo mes dia = false →
        dia ∈ (verificar_posts_pendientes env₂ dia_actual
          ⟨log ++ [error_record (defensiveTruncate text) tipo (some mes)
            (some dia) msg], kv⟩).2) := by
  intro env text tipo mes dia log msg hcfg htw
  have hchkall : ∀ (t' m' : String) (d' : Nat),
      check_post_exists (log ++ [error_record (defensiveTruncate text) tipo
        (some mes) (some dia) msg]) t' m' d' = check_post_exists log t' m' d' := by
    intro t' m' d'
    simp only [check_post_exists, countSuccess_append, countSuccess_single]
    have hms : matchesSlot t' m' d'
        (error_record (defensiveTruncate text) tipo (some mes) (some dia) msg) = false := by
      simp [matchesSlot, error_record]
    simp [hms]
  refine ⟨?_, rfl, rfl, hchkall, ?_⟩
  · unfold send_tweet
    rw [hcfg]
    simp [htw]
  · intro env₂ kv dia_actual hkv hlook hle hchk
    have hatt : (verificar_posts_pendientes env₂ dia_actual
        ⟨log ++ [error_record (defensiveTruncate text) tipo (some mes)
          (some dia) msg], kv⟩).2 =
        (CRONOGRAMA_POSTS.filter (fun e => e.1 ≤ dia_actual &&
          !check_post_exists (log ++ [error_record (defensiveTruncate text) tipo
            (some mes) (some dia) msg]) e.2 mes e.1)).map Prod.fst := by
      unfold verificar_posts_pendientes
      rw [hkv]
      have := pendientes_foldl_attempted env₂ dia_actual mes
        (log ++ [error_record (defensiveTruncate text) tipo (some mes)
          (some dia) msg]) CRONOGRAMA_POSTS
        ⟨log ++ [error_record (defensiveTruncate text) tipo (some mes)
          (some dia) msg], kv⟩ [] (by decide) (fun _ _ => rfl)
      simpa using this
    rw [hatt]
    refine List.mem_map.mpr ⟨(dia, tipo), List.mem_filter.mpr ⟨lookup_mem_assoc _ _ _ hlook, ?_⟩, rfl⟩
    rw [hchkall tipo mes dia, hchk]
    simp [hle]

/-- Witness for C6: a concrete failing publish appends the error record and
leaves the dedup check for its own slot `false`. -/
theorem send_tweet_api_error_logs_error_witness :
    send_tweet envApiErr "hola" "resumen_mensual" (some "2025-09") (some 0) [] =
      (false, [error_record "hola" "resumen_mensual" (some "2025-09") (some 0)
        "403 Forbidden"]) ∧
    check_post_exists [error_record "hola" "resumen_mensual" (some "2025-09")
      (some 0) "403 Forbidden"] "resumen_mensual" "2025-09" 0 =
      check_post_exists [] "resumen_mensual" "2025-09" 0 :=
  ⟨(send_tweet_api_error_logs_error envApiErr "hola" "resumen_mensual" "2025-09"
      0 [] "403 Forbidden" rfl rfl).1,
   (send_tweet_api_error_logs_error envApiErr "hola" "resumen_mensual" "2025-09"
      0 [] "403 Forbidden" rfl rfl).2.2.2.1 "resumen_mensual" "2025-09" 0⟩

lemma get_bot_state_set_self (kv : BotKV) (key value : String) :
    get_bot_state (set_bot_state kv key value) key = some value := by
  simp [get_bot_state, set_bot_state, List.lookup]

/-- C3.  Month rollover: when the backend month-range endpoint reports a
latest month different from the stored `current_publishing_month`, the state
is updated to the backend month and the day-0 (monthly summary) entry is
executed immediately; when the values agree, or no backend month can be
obtained, nothing changes and nothing is executed. -/
theorem verificar_nuevo_mes_rollover :
    (∀ (env : Env) (s : BotSt) (m : String),
      get_latest_month env.rangoMeses = some m →
      get_bot_state s.kv "current_publishing_month" ≠ some m →
      verificar_nuevo_mes env s =
        (⟨(execute_scheduled_post env 0 m s.log).2,
          set_bot_state s.kv "current_publishing_month" m⟩, some 0) ∧
      get_bot_state (verificar_nuevo_mes env s).1.kv "current_publishing_month"
        = some m) ∧
    (∀ (env : Env) (s : BotSt) (m : String),
      get_latest_month env.rangoMeses = some m →
      get_bot_state s.kv "current_publishing_month" = some m →
      verificar_nuevo_mes env s = (s, Option.none)) ∧
    (∀ (env : Env) (s : BotSt),
      get_latest_month env.rangoMeses = Option.none →
      verificar_nuevo_mes env s = (s, Option.none)) ∧
    CRONOGRAMA_POSTS.lookup 0 = some "resumen_mensual" := by
  refine ⟨?_, ?_, ?_, by decide⟩
  · intro env s m hm hne
    have hstep : verificar_nuevo_mes env s =
        (⟨(execute_scheduled_post env 0 m s.log).2,
          set_bot_state s.kv "current_publishing_month" m⟩, some 0) := by
      unfold verificar_nuevo_mes
      rw [hm]
      simp [hne]
    refine ⟨hstep, ?_⟩
    rw [hstep]
    exact get_bot_state_set_self s.kv "current_publishing_month" m
  · intro env s m hm heq
    unfold verificar_nuevo_mes
    rw [hm]
    simp [heq]
  · intro env s hm
    unfold verificar_nuevo_mes
    rw [hm]

/-- Witness for C3: the spec's scenario, with backend month "2025-10" and
stored month "2025-09". -/
theorem verificar_nuevo_mes_rollover_witness :
    verificar_nuevo_mes envPostOK
        ⟨[], [("current_publishing_month", "2025-09")]⟩ =
      (⟨(execute_scheduled_post envPostOK 0 "2025-10"
           (BotSt.mk [] [("current_publishing_month", "2025-09")]).log).2,
        set_bot_state (BotSt.mk [] [("current_publishing_month", "2025-09")]).kv
          "current_publishing_month" "2025-10"⟩, some 0) ∧
    get_bot_state (verificar_nuevo_mes envPostOK
        ⟨[], [("current_publishing_month", "2025-09")]⟩).1.kv
      "current_publishing_month" = some "2025-10" :=
  verificar_nuevo_mes_rollover.1 envPostOK
    ⟨[], [("current_publishing_month", "2025-09")]⟩ "2025-10" rfl (by decide)

/-- C2.  On a catch-up tick with a publishing month set and today's
day-of-month `d`, `verificar_posts_pendientes` attempts exactly the schedule
entries with `day_of_month ≤ d` that lack a successful record; in the spec's
scenario (schedule days 0, 2, 4, 6, ... and `d = 5`, nothing posted yet) it
attempts days 0, 2 and 4 and not 6. -/
theorem verificar_posts_pendientes_catchup :
    (∀ (env : Env) (dia_actual : Nat) (s : BotSt) (mes : String),
      get_bot_state s.kv "current_publishing_month" = some mes →
      (verificar_posts_pendientes env dia_actual s).2 =
        (CRONOGRAMA_POSTS.filter (fun e => e.1 ≤ dia_actual &&
          !check_post_exists s.log e.2 mes e.1)).map Prod.fst) ∧
    (verificar_posts_pendientes envPostOK 5
      ⟨[], [("current_publishing_month", "2025-09")]⟩).2 = [0, 2, 4] := by
  constructor
  · intro env dia_actual s mes hmes
    unfold verificar_posts_pendientes
    rw [hmes]
    have := pendientes_foldl_attempted env dia_actual mes s.log CRONOGRAMA_POSTS
      s [] (by decide) (fun _ _ => rfl)
    simpa using this
  · decide

/-- Witness for C2: the scenario instance obtained from the general
characterization with today = 5, month "2025-09" and an empty log. -/
theorem verificar_posts_pendientes_catchup_witness :
    (verificar_posts_pendientes envPostOK 5
      ⟨[], [("current_publishing_month", "2025-09")]⟩).2 =
    (CRONOGRAMA_POSTS.filter (fun e => e.1 ≤ 5 &&
      !check_post_exists (BotSt.mk [] [("current_publishing_month", "2025-09")]).log
        e.2 "2025-09" e.1)).map Prod.fst :=
  verificar_posts_pendientes_catchup.1 envPostOK 5
    ⟨[], [("current_publishing_month", "2025-09")]⟩ "2025-09" rfl

lemma length_pySlice (s : String) (n : Nat) : (pySlice s n).length ≤ n := by
  have h : (pySlice s n).length = (s.data.take n).length := rfl
  rw [h, List.length_take]
  exact Nat.min_le_left n s.data.length

lemma cap280_ok_some {r : Py (Option String)} {t : String}
    (h : cap280 r = .ok (some t)) : t.length ≤ 280 := by
  cases r with
  | error e => simp [cap280, Except.map] at h
  | ok o =>
    cases o with
    | none => simp [cap280, Except.map] at h
    | some s =>
      simp only [cap280, Except.map, Option.map, Except.ok.injEq,
        Option.some.injEq] at h
      rw [← h]
      exact length_pySlice s 280

/-- C4.  Every formatter output, when not null, has length at most 280
characters, for every payload and month (each formatter ends in
`return tweet[:280]`). -/
theorem formatter_outputs_capped :
    (∀ (data : Option Item) (mes t : String),
      generar_resumen_mensual data mes = .ok (some t) → t.length ≤ 280) ∧
    (∀ (data : Option (List PyVal)) (mes t : String),
      generar_top_aerolineas data mes = .ok (some t) → t.length ≤ 280) ∧
    (∀ (data : Option (List PyVal)) (mes t : String),
      generar_ocupacion_promedio data mes = .ok (some t) → t.length ≤ 280) ∧
    (∀ (data : Option (List PyVal)) (mes t : String),
      generar_evolucion_historica data mes = .ok (some t) → t.length ≤ 280) ∧
    (∀ (data : Option (List PyVal)) (mes t : String),
      generar_historial_vuelos_mes data mes = .ok (some t) → t.length ≤ 280) ∧
    (∀ (data : Option (List PyVal)) (mes t : String),
      generar_destinos_internacionales data mes = .ok (some t) → t.length ≤ 280) ∧
    (∀ (data : Option (List PyVal)) (mes t : String),
      generar_rutas_transitadas data mes = .ok (some t) → t.length ≤ 280) ∧
    (∀ (data : Option (List PyVal)) (mes t : String),
      generar_aeropuertos_activos data mes = .ok (some t) → t.length ≤ 280) ∧
    (∀ (actual anterior : Option (List PyVal)) (mes t : String),
      generar_comparativa_aeropuertos actual anterior mes = .ok (some t) →
        t.length ≤ 280) ∧
    (∀ (vuelos_diario pax_diario : Option (List PyVal)) (mes t : String),
      generar_records_curiosidades vuelos_diario pax_diario mes = .ok (some t) →
        t.length ≤ 280) ∧
    (∀ (aerolineas_mes : Option (List PyVal)) (mes t : String),
      generar_aerolineas_inusuales aerolineas_mes mes = .ok (some t) →
        t.length ≤ 280) ∧
    (∀ (kpis_actual kpis_anterior : Option Item) (mes t : String),
      generar_comparativa_mensual kpis_actual kpis_anterior mes = .ok (some t) →
        t.length ≤ 280) ∧
    (∀ (data : Option (List PyVal)) (mes t : String),
      generar_rutas_internacionales data mes = .ok (some t) → t.length ≤ 280) ∧
    (∀ (data : Option (List PyVal)) (mes t : String),
      generar_promedios_clase data mes = .ok (some t) → t.length ≤ 280) ∧
    (∀ (kpis : Option Item) (aerolineas aeropuertos : Option (List PyVal))
      (mes t : String),
      generar_recap_grafico kpis aerolineas aeropuertos mes = .ok (some t) →
        t.length ≤ 280) := by
  refine ⟨fun _ _ _ h => cap280_ok_some h, fun _ _ _ h => cap280_ok_some h,
    fun _ _ _ h => cap280_ok_some h, fun _ _ _ h => cap280_ok_some h,
    fun _ _ _ h => cap280_ok_some h, fun _ _ _ h => cap280_ok_some h,
    fun _ _ _ h => cap280_ok_some h, fun _ _ _ h => cap280_ok_some h,
    fun _ _ _ _ h => cap280_ok_some h, fun _ _ _ _ h => cap280_ok_some h,
    fun _ _ _ h => cap280_ok_some h, fun _ _ _ _ h => cap280_ok_some h,
    fun _ _ _ h => cap280_ok_some h, fun _ _ _ h => cap280_ok_some h,
    fun _ _ _ _ _ h => cap280_ok_some h⟩

/-- The C5/C4 scenario payload under the field names `generar_top_aerolineas`
actually recognizes (`nombre`, `Cantidad`). -/
def payloadTopNombre : List PyVal :=
  [PyVal.dict [("nombre", PyVal.str "A"), ("Cantidad", PyVal.int 0)],
   PyVal.dict [("nombre", PyVal.str "B"), ("Cantidad", PyVal.int 50)],
   PyVal.dict [("nombre", PyVal.str "C"), ("Cantidad", PyVal.int 30)]]

/-- Witness for C4: the top-airlines formatter on a concrete payload yields a
text of length at most 280. -/
theorem formatter_outputs_capped_witness :
    generar_top_aerolineas (some payloadTopNombre) "2025-09" =
      .ok (some "🏆 Top Aerolíneas Septiembre 2025\n¿Cuál es tu favorita?\n\n🥇 B: 50 vuelos\n🥈 C: 30 vuelos\n\naviadata.ar\n#Aerolineas #Septiembre2025") ∧
    String.length "🏆 Top Aerolíneas Septiembre 2025\n¿Cuál es tu favorita?\n\n🥇 B: 50 vuelos\n🥈 C: 30 vuelos\n\naviadata.ar\n#Aerolineas #Septiembre2025" ≤ 280 :=
  ⟨by decide,
   formatter_outputs_capped.2.1 (some payloadTopNombre) "2025-09" _ (by decide)⟩


lemma insertStable_perm (after : α → α → Bool) (x : α) :
    ∀ l : List α, (insertStable after x l).Perm (x :: l) := by
  intro l
  induction l with
  | nil => simp [insertStable]
  | cons y ys ih =>
    by_cases hxy : after x y
    · simp only [insertStable, hxy, if_true]
      exact (ih.cons y).trans (List.Perm.swap x y ys)
    · simp only [insertStable, hxy, Bool.false_eq_true, if_false]
      exact List.Perm.refl _

lemma foldl_insertStable_perm (after : α → α → Bool) :
    ∀ (l acc : List α),
      (l.foldl (fun acc x => insertStable after x acc) acc).Perm (acc ++ l) := by
  intro l
  induction l with
  | nil => intro acc; simp
  | cons x xs ih =>
    intro acc
    simp only [List.foldl_cons]
    refine (ih (insertStable after x acc)).trans ?_
    refine (List.Perm.append_right xs (insertStable_perm after x acc)).trans ?_
    exact List.perm_middle.symm

/-- The stable sort is a permutation of its input. -/
lemma stableSortBy_perm (after : α → α → Bool) (l : List α) :
    (stableSortBy after l).Perm l := by
  simpa using foldl_insertStable_perm after l []

lemma mem_insertStable {after : α → α → Bool} {x z : α} {l : List α}
    (h : z ∈ insertStable after x l) : z = x ∨ z ∈ l := by
  have := (insertStable_perm after x l).mem_iff.mp h
  simpa using this

lemma insertStable_sorted (key : α → Rat) (x : α) :
    ∀ l : List α, l.Sorted (fun a b => key b ≤ key a) →
    (insertStable (fun a b => decide (key a ≤ key b)) x l).Sorted
      (fun a b => key b ≤ key a) := by
  intro l
  induction l with
  | nil => intro _; simp [insertStable]
  | cons y ys ih =>
    intro hs
    rw [List.sorted_cons] at hs
    by_cases hxy : key x ≤ key y
    · have hb : decide (key x ≤ key y) = true := decide_eq_true_eq.mpr hxy
      simp only [insertStable, hb, if_true]
      rw [List.sorted_cons]
      refine ⟨?_, ih hs.2⟩
      intro z hz
      rcases mem_insertStable hz with rfl | hzys
      · exact hxy
      · exact hs.1 z hzys
    · have hb : decide (key x ≤ key y) = false := decide_eq_false_iff_not.mpr hxy
      simp only [insertStable, hb, Bool.false_eq_true, if_false]
      rw [List.sorted_cons]
      refine ⟨?_, List.sorted_cons.mpr hs⟩
      intro z hz
      rcases List.mem_cons.mp hz with rfl | hzys
      · exact le_of_not_le hxy
      · exact (hs.1 z hzys).trans (le_of_not_le hxy)

/-- The descending sort used by the rankers really sorts by non-increasing
key. -/
lemma sortDescByRat_sorted (key : α → Rat) (l : List α) :
    (sortDescByRat key l).Sorted (fun a b => key b ≤ key a) := by
  unfold sortDescByRat stableSortBy
  suffices hgen : ∀ (l acc : List α), acc.Sorted (fun a b => key b ≤ key a) →
      (l.foldl (fun acc x => insertStable (fun a b => decide (key a ≤ key b)) x acc)
        acc).Sorted (fun a b => key b ≤ key a) by
    simpa using hgen l [] (by simp)
  intro l
  induction l with
  | nil => intro acc h; exact h
  | cons x xs ih =>
    intro acc h
    simp only [List.foldl_cons]
    exact ih _ (insertStable_sorted key x acc h)

/-- The spec scenario's literal payload, with field names `name`/`count` that
`generar_top_aerolineas` does not recognize. -/
def payloadNameCount : List PyVal :=
  [PyVal.dict [("name", PyVal.str "A"), ("count", PyVal.int 0)],
   PyVal.dict [("name", PyVal.str "B"), ("count", PyVal.int 50)],
   PyVal.dict [("name", PyVal.str "C"), ("count", PyVal.int 30)]]

/-- A destinations payload consisting of a single zero-count entry. -/
def payloadDestinoCero : List PyVal :=
  [PyVal.dict [("Pais Destino Nombre", PyVal.str "A"), ("total_vuelos", PyVal.int 0)]]

/-- The destinations payload with entries A (count 0), B (50), C (30) in that
order, under the field names the formatter reads. -/
def payloadDestinosABC : List PyVal :=
  [PyVal.dict [("Pais Destino Nombre", PyVal.str "A"), ("total_vuelos", PyVal.int 0)],
   PyVal.dict [("Pais Destino Nombre", PyVal.str "B"), ("total_vuelos", PyVal.int 50)],
   PyVal.dict [("Pais Destino Nombre", PyVal.str "C"), ("total_vuelos", PyVal.int 30)]]

set_option maxRecDepth 8192

/-- Counterexample for C5.  On the claim's literal payload (`name`/`count`
keys) `generar_top_aerolineas` parses every count as 0 and returns null — so
"B" does not rank first; and `generar_destinos_internacionales` does not
discard a zero-magnitude entry: on a payload whose only entry has count 0 (the
claim's filtered set is empty) it still returns a tweet, and on entries
A (0), B (50), C (30) it lists "A: 0 vuelos" first, unfiltered and unsorted. -/
theorem top_ranking_counterexample :
    generar_top_aerolineas (some payloadNameCount) "2025-09" = .ok Option.none ∧
    generar_destinos_internacionales (some payloadDestinoCero) "2025-09" ≠
      .ok Option.none ∧
    generar_destinos_internacionales (some payloadDestinosABC) "2025-09" =
      .ok (some "🌍 ¿A dónde volamos en Septiembre 2025?\nTop destinos internacionales:\n\n🥇 A: 0 vuelos\n🥈 B: 50 vuelos\n🥉 C: 30 vuelos\n\naviadata.ar\n#DestinosInternacionales #Septiembre2025") := by
  refine ⟨by decide, by decide, by decide⟩

/-- C5 (amended).  `generar_top_aerolineas` discards entries with non-positive
or non-numeric magnitude, sorts the remainder descending (stably), takes the
top three with the medal labels, and returns null exactly when the filtered
set is empty; on the scenario payload under its recognized field names
(`nombre`/`Cantidad`) "A" is excluded, "B" ranks first and "C" second.
`generar_destinos_internacionales`, by contrast, takes the first three entries
as given (no filter, no sort) and returns null exactly when the raw payload is
empty.  The descending sort the rankers use is a permutation of the filtered
entries, sorted by non-increasing magnitude. -/
theorem top_ranking_amended :
    (∀ (l : List PyVal) (mes : String) (r : Option String),
      generar_top_aerolineas (some l) mes = .ok r →
      (r = Option.none ↔ top_aerolineas_parsed l = .ok [])) ∧
    generar_top_aerolineas (some payloadTopNombre) "2025-09" =
      .ok (some "🏆 Top Aerolíneas Septiembre 2025\n¿Cuál es tu favorita?\n\n🥇 B: 50 vuelos\n🥈 C: 30 vuelos\n\naviadata.ar\n#Aerolineas #Septiembre2025") ∧
    (∀ (l : List PyVal) (mes : String) (r : Option String),
      generar_destinos_internacionales (some l) mes = .ok r →
      (r = Option.none ↔ l = [])) ∧
    (∀ l : List (PyVal × PyVal), (sortDescByRat (fun p => toRat p.2) l).Perm l) ∧
    (∀ l : List (PyVal × PyVal),
      (sortDescByRat (fun p => toRat p.2) l).Sorted
        (fun a b => toRat b.2 ≤ toRat a.2)) := by
  refine ⟨?_, by decide, ?_, fun l => stableSortBy_perm _ l,
    fun l => sortDescByRat_sorted _ l⟩
  · intro l mes r h
    by_cases hl : l = []
    · subst hl
      have hg : generar_top_aerolineas (some ([] : List PyVal)) mes = .ok Option.none := rfl
      rw [hg] at h
      obtain rfl : Option.none = r := Except.ok.inj h
      exact ⟨fun _ => rfl, fun _ => rfl⟩
    · obtain ⟨x, xs, rfl⟩ := List.exists_cons_of_ne_nil hl
      unfold generar_top_aerolineas cap280 generar_top_aerolineas_text at h
      simp only [optListTruthy, Option.getD_some, List.isEmpty_cons, Bool.not_false,
        Bool.not_true, Bool.false_eq_true, if_false] at h
      cases hp : top_aerolineas_parsed (x :: xs) with
      | error e =>
        rw [hp] at h
        simp [Except.map] at h
      | ok ps =>
        rw [hp] at h
        cases ps with
        | nil =>
          simp only [List.isEmpty_nil, if_true, Except.map, Except.ok.injEq] at h
          subst h
          simp
        | cons p ps' =>
          simp only [List.isEmpty_cons, Bool.false_eq_true, if_false, Except.map,
            Except.ok.injEq] at h
          subst h
          simp
  · intro l mes r h
    by_cases hl : l = []
    · subst hl
      have hg : generar_destinos_internacionales (some ([] : List PyVal)) mes =
          .ok Option.none := rfl
      rw [hg] at h
      obtain rfl : Option.none = r := Except.ok.inj h
      simp
    · obtain ⟨x, xs, rfl⟩ := List.exists_cons_of_ne_nil hl
      unfold generar_destinos_internacionales cap280
        generar_destinos_internacionales_text at h
      simp only [optListTruthy, Option.getD_some, List.isEmpty_cons, Bool.not_false,
        Bool.not_true, Bool.false_eq_true, if_false] at h
      cases hm : ((x :: xs).take 3).mapM destinos_row with
      | error e =>
        rw [hm] at h
        simp [Except.map] at h
      | ok rows =>
        rw [hm] at h
        simp only [Except.map, Except.ok.injEq] at h
        subst h
        simp

/-- Witness for C5 (amended): the literal `name`/`count` payload is a concrete
input where the formatter returns null and the filtered set is empty. -/
theorem top_ranking_amended_witness :
    ((Option.none : Option String) = Option.none ↔
      top_aerolineas_parsed payloadNameCount = .ok []) :=
  top_ranking_amended.1 payloadNameCount "2025-09" Option.none (by decide)

/-- C9.  For every month string accepted by `strptime` ("YYYY-MM", year ≥ 1,
month 1..12 — except year 1 month 1, where stepping before `datetime.min`
raises), the previous month computed by `_get_prev_month` is the calendar
month of the last day before the 1st (so month 1 wraps to December of the
previous year); "2025-01" gives "2024-12" and "2025-10" gives "2025-09"; and
both comparison formatters return null when the prior-month data is absent or
empty. -/
theorem prev_month_calendar :
    (∀ (mes : String) (y m : Nat), parseYM mes = some (y, m) →
      ¬(y = 1 ∧ m = 1) →
      _get_prev_month mes =
        some (if m = 1 then fmtYM (y - 1) 12 else fmtYM y (m - 1))) ∧
    _get_prev_month "2025-01" = some "2024-12" ∧
    _get_prev_month "2025-10" = some "2025-09" ∧
    (∀ (actual : Option (List PyVal)) (mes : String),
      generar_comparativa_aeropuertos actual Option.none mes = .ok Option.none ∧
      generar_comparativa_aeropuertos actual (some []) mes = .ok Option.none) ∧
    (∀ (kpis : Option Item) (mes : String),
      generar_comparativa_mensual kpis Option.none mes = .ok Option.none ∧
      generar_comparativa_mensual kpis (some []) mes = .ok Option.none) := by
  refine ⟨?_, by decide, by decide, ?_, ?_⟩
  · intro mes y m hp hne
    unfold _get_prev_month
    rw [hp]
    have hb : (decide (y = 1) && decide (m = 1)) = false := by
      simp only [Bool.and_eq_false_iff, decide_eq_false_iff_not]
      omega
    dsimp only
    rw [hb]
    simp only [Bool.false_eq_true, if_false]
    by_cases hm1 : m = 1
    · simp [hm1]
    · simp [hm1]
  · intro actual mes
    constructor
    · unfold generar_comparativa_aeropuertos cap280 generar_comparativa_aeropuertos_text
      simp [optListTruthy, Except.map, Option.map]
    · unfold generar_comparativa_aeropuertos cap280 generar_comparativa_aeropuertos_text
      simp [optListTruthy, Except.map, Option.map]
  · intro kpis mes
    constructor
    · unfold generar_comparativa_mensual cap280 generar_comparativa_mensual_text
      simp [optDictTruthy, Except.map, Option.map]
    · unfold generar_comparativa_mensual cap280 generar_comparativa_mensual_text
      simp [optDictTruthy, Except.map, Option.map]

/-- Witness for C9: the general statement applied at "2025-10". -/
theorem prev_month_calendar_witness :
    _get_prev_month "2025-10" =
      some (if (10 : Nat) = 1 then fmtYM (2025 - 1) 12 else fmtYM 2025 (10 - 1)) :=
  prev_month_calendar.1 "2025-10" 2025 10 (by decide) (by decide)

/-- Length of the text of an ok-some formatter result (0 otherwise). -/
def okSomeLength (r : Py (Option String)) : Nat :=
  match r with
  | .ok (some t) => t.length
  | _ => 0

/-- Whether the result is an ok-some (a produced text). -/
def isOkSome (r : Py (Option String)) : Bool :=
  match r with
  | .ok (some _) => true
  | _ => false

/-- Whether the produced text ends with the given marker. -/
def okSomeEndsWith (r : Py (Option String)) (marker : String) : Bool :=
  match r with
  | .ok (some t) => marker.data.isSuffixOf t.data
  | _ => false

/-- A month-history payload whose computed text exceeds 280 characters (eight
entries with long month labels). -/
def historialOversizedPayload : List PyVal :=
  (List.range 8).map (fun i =>
    PyVal.dict [("Mes", PyVal.str (String.mk (List.replicate (40 + i) 'X'))),
                ("Cantidad", PyVal.int 1)])

/-- Counterexample for C8.  On a concrete oversized input the computed text of
`generar_historial_vuelos_mes` exceeds 280 characters, yet the emitted text is
the plain 280-character cut with no ellipsis marker ("..." or "…") appended. -/
theorem formatter_truncation_counterexample :
    280 < okSomeLength (generar_historial_vuelos_mes_text
      (some historialOversizedPayload) "2025-09") ∧
    isOkSome (generar_historial_vuelos_mes
      (some historialOversizedPayload) "2025-09") = true ∧
    okSomeEndsWith (generar_historial_vuelos_mes
      (some historialOversizedPayload) "2025-09") "..." = false ∧
    okSomeEndsWith (generar_historial_vuelos_mes
      (some historialOversizedPayload) "2025-09") "…" = false := by
  refine ⟨by decide, by decide, by decide, by decide⟩

/-- C8 (amended).  Oversized computed texts are truncated by the formatters
themselves by plain cutting to the first 280 characters with no ellipsis
appended (`tweet[:280]`, uniform across formatters via the shared cap);
consequently the publisher's defensive cut-to-277-plus-"..." rule in
`send_tweet` never modifies a formatter output, and applies only to text
longer than 280 characters. -/
theorem formatter_truncation_amended :
    (∀ (r : Py (Option String)) (t : String), cap280 r = .ok (some t) →
      t.length ≤ 280 ∧ defensiveTruncate t = t) ∧
    (∀ (data : Option (List PyVal)) (mes raw : String),
      generar_historial_vuelos_mes_text data mes = .ok (some raw) →
      generar_historial_vuelos_mes data mes = .ok (some (pySlice raw 280))) ∧
    (∀ s : String, 280 < s.length →
      defensiveTruncate s = pySlice s 277 ++ "...") := by
  refine ⟨?_, ?_, ?_⟩
  · intro r t h
    have hlen := cap280_ok_some h
    refine ⟨hlen, ?_⟩
    unfold defensiveTruncate
    rw [if_neg (by omega)]
  · intro data mes raw h
    unfold generar_historial_vuelos_mes cap280
    rw [h]
    rfl
  · intro s hs
    unfold defensiveTruncate
    rw [if_pos hs]

/-- Witness for C8 (amended): the publisher truncation rule applied to a
concrete 300-character string. -/
theorem formatter_truncation_amended_witness :
    defensiveTruncate (String.mk (List.replicate 300 'a')) =
      pySlice (String.mk (List.replicate 300 'a')) 277 ++ "..." :=
  formatter_truncation_amended.2.2 (String.mk (List.replicate 300 'a')) (by decide)

